import Mathlib

/-!
Verification development for the krakenbuster scan engine.

Strings are modelled as lists of characters (type Str below).  The
regex-based line classifier of krakenbuster/output.py is embedded as
executable matchers over Str, one per regex pattern, with the same
search semantics as Python re.search restricted to ASCII inputs:
the leftmost position at which the pattern matches wins, and within a
position the deterministic greedy behaviour of each concrete pattern
is reproduced (all the patterns used in the source are free of
observable backtracking in their captured groups, as argued in the
comments of each matcher).
-/

/-- A string modelled as a list of characters. -/
abbrev Str := List Char

/-- Coerce a Lean string literal into the Str model. -/
def strL (s : String) : Str := s.data

/-- Python regex class backslash-d restricted to ASCII: the characters 0-9. -/
def isDig (c : Char) : Bool := c.isDigit

/-- Python regex word character (backslash-w) restricted to ASCII. -/
def isWordChar (c : Char) : Bool := c.isAlphanum || c == '_'

/-- Python regex whitespace class (backslash-s) restricted to ASCII. -/
def isSpaceChar (c : Char) : Bool :=
  c == ' ' || c == '\t' || c == '\n' || c == '\r' || c == '\x0b' || c == '\x0c'

/-- Numeric value of an ASCII digit character. -/
def digitVal (c : Char) : Nat := c.toNat - 48

/-- Numeric value of a digit string, as computed by Python int() on digits. -/
def natOfDigits (ds : Str) : Nat := ds.foldl (fun n c => 10 * n + digitVal c) 0

/-- Match a literal pattern at the head of the input, returning the rest. -/
def lit (pat : Str) (l : Str) : Option Str :=
  if pat.isPrefixOf l then some (l.drop pat.length) else none

/-- Match exactly three digit characters (regex backslash-d repeated three
times), returning their numeric value and the rest of the input. -/
def d3 : Str → Option (Nat × Str)
  | a :: b :: c :: rest =>
    if isDig a && isDig b && isDig c then
      some (100 * digitVal a + 10 * digitVal b + digitVal c, rest)
    else none
  | _ => none

/-- Skip the maximal run of leading whitespace (greedy backslash-s star).
None of the source patterns can backtrack into a shorter run because the
character required after the run is never a whitespace character. -/
def skipWs : Str → Str
  | [] => []
  | c :: t => if isSpaceChar c then skipWs t else c :: t

/-- Maximal run of leading digits together with the rest (greedy
backslash-d plus; the source patterns never backtrack into a shorter run
because the character required after the run is never a digit). -/
def takeDigits (l : Str) : Str × Str := (l.takeWhile isDig, l.dropWhile isDig)

/-- Word-boundary test on the character preceding the current position,
for patterns whose next character is a word character (all uses below
place backslash-b directly before a digit or before the letter h). -/
def bnd : Option Char → Bool
  | none => true
  | some c => !isWordChar c

/-- Search driver reproducing re.search: try the matcher at every
position from the left, threading the previous character for
word-boundary tests, and return the first success. -/
def searchGo {α : Type} (p : Option Char → Str → Option α) (prev : Option Char) :
    Str → Option α
  | [] => p prev []
  | c :: t =>
    match p prev (c :: t) with
    | some v => some v
    | none => searchGo p (some c) t

/-- re.search over the whole line. -/
def search {α : Type} (p : Option Char → Str → Option α) (l : Str) : Option α :=
  searchGo p none l

/-- Pattern CODE:(ddd) of parse_status_code (dirb style). -/
def mCode (_ : Option Char) (l : Str) : Option Nat :=
  match lit (strL "CODE:") l with
  | some r => (d3 r).map Prod.fst
  | none => none

/-- Pattern C=(ddd) of parse_status_code (wfuzz/dirsearch style). -/
def mCEq (_ : Option Char) (l : Str) : Option Nat :=
  match lit (strL "C=") l with
  | some r => (d3 r).map Prod.fst
  | none => none

/-- Pattern Status: ws* (ddd) of parse_status_code (feroxbuster style). -/
def mStatus (_ : Option Char) (l : Str) : Option Nat :=
  match lit (strL "Status:") l with
  | some r => (d3 (skipWs r)).map Prod.fst
  | none => none

/-- Pattern [Status: ws* (ddd)] of parse_status_code (bracketed). -/
def mBracketStatus (_ : Option Char) (l : Str) : Option Nat :=
  match lit (strL "[Status:") l with
  | some r =>
    match d3 (skipWs r) with
    | some (v, ']' :: _) => some v
    | _ => none
  | none => none

/-- Pattern (Status: ws* (ddd)) of parse_status_code (parenthesised). -/
def mParenStatus (_ : Option Char) (l : Str) : Option Nat :=
  match lit (strL "(Status:") l with
  | some r =>
    match d3 (skipWs r) with
    | some (v, ')' :: _) => some v
    | _ => none
  | none => none

/-- Anchored pattern caret ws* (ddd) ws of parse_status_code: the line
starts with optional whitespace, a status code, then one whitespace
character.  Anchored, so it is tried at position zero only. -/
def mLineStart (l : Str) : Option Nat :=
  match d3 (skipWs l) with
  | some (v, c :: _) => if isSpaceChar c then some v else none
  | _ => none

/-- Does http:// or https:// start here (the literal tail of the
status-before-URL pattern; the greedy s-question-mark never changes
whether a match exists at a position). -/
def httpHere (l : Str) : Bool :=
  (strL "https://").isPrefixOf l || (strL "http://").isPrefixOf l

/-- Scan for dot-star followed by a word boundary and http(s)://,
starting right after the captured status code.  Dot matches anything
except a newline, so the scan stops at a newline character. -/
def tailHttp (prev : Char) : Str → Bool
  | [] => false
  | c :: t =>
    (bnd (some prev) && httpHere (c :: t)) ||
      (if c == '\n' then false else tailHttp c t)

/-- Pattern boundary (ddd) boundary dot-star boundary https?:// of
parse_status_code (status code before URL). -/
def mCodeBeforeUrl (prev : Option Char) (l : Str) : Option Nat :=
  if bnd prev then
    match l with
    | a :: b :: c :: rest =>
      if isDig a && isDig b && isDig c then
        let afterOk := match rest with
          | [] => false
          | r :: _ => !isWordChar r
        if afterOk && tailHttp c rest then
          some (100 * digitVal a + 10 * digitVal b + digitVal c)
        else none
      else none
    | _ => none
  else none

/-- Pattern boundary (ddd) ws+ digits+ letter of parse_status_code
(status followed by a size field). -/
def mCodeThenSize (prev : Option Char) (l : Str) : Option Nat :=
  if bnd prev then
    match d3 l with
    | some (v, rest) =>
      match rest with
      | r :: _ =>
        if isSpaceChar r then
          let afterWs := skipWs rest
          let (ds, rest2) := takeDigits afterWs
          if !ds.isEmpty then
            match rest2 with
            | x :: _ => if x.isAlpha then some v else none
            | [] => none
          else none
        else none
      | [] => none
    | none => none
  else none

/-- Pattern pipe ws* (ddd) ws* pipe of parse_status_code
(pipe-delimited). -/
def mPiped (_ : Option Char) (l : Str) : Option Nat :=
  match l with
  | '|' :: t =>
    match d3 (skipWs t) with
    | some (v, rest) =>
      match skipWs rest with
      | '|' :: _ => some v
      | _ => none
    | none => none
  | _ => none

/-- The ordered pattern table of parse_status_code, as data: each entry
is one searched regex.  The anchored pattern is applied at position
zero only, reproducing re.search of a caret-anchored pattern. -/
def statusPatterns : List (Str → Option Nat) :=
  [ search mCode
  , search mCEq
  , search mStatus
  , search mBracketStatus
  , search mParenStatus
  , mLineStart
  , search mCodeBeforeUrl
  , search mCodeThenSize
  , search mPiped ]

/-- The range filter of parse_status_code. -/
def statusInRange (v : Nat) : Bool := 100 ≤ v && v ≤ 599

/-- Try the patterns in order; a pattern whose first match is out of
range is abandoned and the next pattern is tried, exactly as the
source loop does. -/
def tryStatusPatterns : List (Str → Option Nat) → Str → Option Nat
  | [], _ => none
  | p :: ps, l =>
    match p l with
    | some v => if statusInRange v then some v else tryStatusPatterns ps l
    | none => tryStatusPatterns ps l

/-- Embedding of parse_status_code from krakenbuster/output.py. -/
def parse_status_code (l : Str) : Option Nat := tryStatusPatterns statusPatterns l

example : parse_status_code (strL "200      42l      128w     1523c http://x/admin") = some 200 := by decide

example : parse_status_code (strL "==> DIRECTORY: http://x/images/") = none := by decide

example : parse_status_code (strL "CODE:1234") = some 123 := by decide

/-- First match of a pattern list, used by the size pattern table. -/
def firstSome {α : Type} : List (Str → Option α) → Str → Option α
  | [], _ => none
  | p :: ps, l =>
    match p l with
    | some v => some v
    | none => firstSome ps l

/-- Pattern SIZE:(digits) of parse_size (dirb style). -/
def sSIZE (_ : Option Char) (l : Str) : Option Nat :=
  match lit (strL "SIZE:") l with
  | some r =>
    let (ds, _) := takeDigits r
    if ds.isEmpty then none else some (natOfDigits ds)
  | none => none

/-- Pattern Size: ws* (digits) of parse_size (feroxbuster/ffuf style). -/
def sSize (_ : Option Char) (l : Str) : Option Nat :=
  match lit (strL "Size:") l with
  | some r =>
    let (ds, _) := takeDigits (skipWs r)
    if ds.isEmpty then none else some (natOfDigits ds)
  | none => none

/-- Pattern boundary (digits) [Bb] boundary of parse_size (standalone
byte count).  The digit run is maximal: a shorter run ends in a digit,
which can never satisfy the [Bb] that follows, so greedy matching is
deterministic here. -/
def sByte (prev : Option Char) (l : Str) : Option Nat :=
  if bnd prev then
    let (ds, rest) := takeDigits l
    if ds.isEmpty then none
    else
      match rest with
      | b :: rest2 =>
        if b == 'B' || b == 'b' then
          match rest2 with
          | [] => some (natOfDigits ds)
          | x :: _ => if !isWordChar x then some (natOfDigits ds) else none
        else none
      | [] => none
  else none

/-- Pattern pipe ws* (digits) ws* pipe of parse_size (pipe-delimited). -/
def sPiped (_ : Option Char) (l : Str) : Option Nat :=
  match l with
  | '|' :: t =>
    let (ds, rest) := takeDigits (skipWs t)
    if ds.isEmpty then none
    else
      match skipWs rest with
      | '|' :: _ => some (natOfDigits ds)
      | _ => none
  | _ => none

/-- The ordered pattern table of parse_size. -/
def sizePatterns : List (Str → Option Nat) :=
  [search sSIZE, search sSize, search sByte, search sPiped]

/-- Embedding of parse_size from krakenbuster/output.py: first matching
pattern wins, zero when no pattern matches. -/
def parse_size (l : Str) : Nat := (firstSome sizePatterns l).getD 0

/-- The URL pattern (https?://S+): at a matching position the group is
the protocol prefix followed by the maximal nonempty run of non-space
characters.  When the text starts with https:// the no-s alternative
can never match at the same position, so the branch order of the
greedy s-question-mark collapses to this case split. -/
def urlHere (l : Str) : Option Str :=
  if (strL "https://").isPrefixOf l then
    let run := (l.drop 8).takeWhile (fun c => !isSpaceChar c)
    if run.isEmpty then none else some (strL "https://" ++ run)
  else if (strL "http://").isPrefixOf l then
    let run := (l.drop 7).takeWhile (fun c => !isSpaceChar c)
    if run.isEmpty then none else some (strL "http://" ++ run)
  else none

/-- Truncate the input at the first occurrence of the given pattern,
modelling re.sub of pattern-dot-star with the empty string (the
optional leading ws* of the source patterns always matches empty
inside a URL, which contains no whitespace). -/
def truncAt (pat : Str) : Str → Str
  | [] => []
  | c :: t => if pat.isPrefixOf (c :: t) then [] else c :: truncAt pat t

/-- Python str.rstrip with an explicit character set. -/
def rstripChars (p : Char → Bool) (l : Str) : Str := (l.reverse.dropWhile p).reverse

/-- Embedding of parse_url from krakenbuster/output.py. -/
def parse_url (l : Str) : Str :=
  match search (fun _ s => urlHere s) l with
  | some url =>
    let url := truncAt (strL "(CODE:") url
    let url := truncAt (strL "(Status:") url
    rstripChars (fun c => c == ',' || c == ';' || c == ']' || c == ')' || c == '(') url
  | none => []

/-- Embedding of the Finding dataclass from krakenbuster/output.py. -/
structure Finding where
  status_code : Nat := 0
  url : Str := []
  size : Nat := 0
  words : Nat := 0
  lines : Nat := 0
  redirect : Str := []
  deriving Repr, DecidableEq

/-- Embedding of parse_finding from krakenbuster/output.py. -/
def parse_finding (l : Str) : Option Finding :=
  match parse_status_code l with
  | none => none
  | some status =>
    some { status_code := status, url := parse_url l, size := parse_size l }

/-- Pattern Progress: ws* (digits) ws* / ws* (digits) of parse_progress
(gobuster style). -/
def pgGobuster (_ : Option Char) (l : Str) : Option (Nat × Nat) :=
  match lit (strL "Progress:") l with
  | some r =>
    let (ds, r1) := takeDigits (skipWs r)
    if ds.isEmpty then none
    else
      match skipWs r1 with
      | '/' :: r2 =>
        let (ts, _) := takeDigits (skipWs r2)
        if ts.isEmpty then none else some (natOfDigits ds, natOfDigits ts)
      | _ => none
  | none => none

/-- Pattern Progress: ws* [(digits)/(digits)] of parse_progress (ffuf
style). -/
def pgFfuf (_ : Option Char) (l : Str) : Option (Nat × Nat) :=
  match lit (strL "Progress:") l with
  | some r =>
    match skipWs r with
    | '[' :: r1 =>
      let (ds, r2) := takeDigits r1
      if ds.isEmpty then none
      else
        match r2 with
        | '/' :: r3 =>
          let (ts, r4) := takeDigits r3
          if ts.isEmpty then none
          else
            match r4 with
            | ']' :: _ => some (natOfDigits ds, natOfDigits ts)
            | _ => none
        | _ => none
    | _ => none
  | none => none

/-- The bare (digits)/(digits) core of the feroxbuster progress
pattern. -/
def pgSlashCore (l : Str) : Option (Nat × Nat) :=
  let (ds, r1) := takeDigits l
  if ds.isEmpty then none
  else
    match r1 with
    | '/' :: r2 =>
      let (ts, _) := takeDigits r2
      if ts.isEmpty then none else some (natOfDigits ds, natOfDigits ts)
    | _ => none

/-- Pattern (Scanned ws+)? (digits)/(digits) of parse_progress
(feroxbuster style): the optional non-capturing prefix is tried first,
exactly as the greedy question-mark does. -/
def pgSlash (_ : Option Char) (l : Str) : Option (Nat × Nat) :=
  let withPrefix :=
    match lit (strL "Scanned") l with
    | some r =>
      match r with
      | c :: _ => if isSpaceChar c then pgSlashCore (skipWs r) else none
      | [] => none
    | none => none
  match withPrefix with
  | some v => some v
  | none => pgSlashCore l

/-- The x/y pattern table of parse_progress, in source order. -/
def progressPatterns : List (Str → Option (Nat × Nat)) :=
  [search pgGobuster, search pgFfuf, search pgSlash]

/-- Try the x/y patterns in order; a pattern whose first match fails
the total-positive and completed-at-most-total guard is abandoned and
the next pattern is tried, exactly as the source loop does. -/
def tryProgressPatterns : List (Str → Option (Nat × Nat)) → Str → Option (Nat × Nat)
  | [], _ => none
  | p :: ps, l =>
    match p l with
    | some (d, t) =>
      if 0 < t && d ≤ t then some (d, t) else tryProgressPatterns ps l
    | none => tryProgressPatterns ps l

/-- Pattern boundary (one-to-three digits) percent of parse_progress
(dirsearch style).  The greedy counted repetition collapses: a shorter
prefix of the digit run is followed by a digit, never by a percent
sign, and a run longer than three digits can never be followed by a
percent sign within three characters. -/
def pgPct (prev : Option Char) (l : Str) : Option Nat :=
  if bnd prev then
    let (ds, rest) := takeDigits l
    if ds.isEmpty || 3 < ds.length then none
    else
      match rest with
      | '%' :: _ => some (natOfDigits ds)
      | _ => none
  else none

/-- Embedding of parse_progress from krakenbuster/output.py. -/
def parse_progress (l : Str) : Option (Nat × Nat) :=
  match tryProgressPatterns progressPatterns l with
  | some v => some v
  | none =>
    match search pgPct l with
    | some pct => if 0 < pct && pct ≤ 100 then some (pct, 100) else none
    | none => none

/-- Recursion core of stripProtocols, modelling re.sub of the pattern
https?:// with the empty string. -/
def stripProtocolsGo : Nat → Str → Str
  | 0, l => l
  | _ + 1, [] => []
  | f + 1, c :: t =>
    if (strL "https://").isPrefixOf (c :: t) then stripProtocolsGo f (t.drop 7)
    else if (strL "http://").isPrefixOf (c :: t) then stripProtocolsGo f (t.drop 6)
    else c :: stripProtocolsGo f t

/-- Removal of every occurrence of http:// or https://, scanning left
to right without revisiting replaced text.  The fuel argument only
bounds the recursion depth: every step consumes at least one input
character, so a fuel of the input length never runs out. -/
def stripProtocols (l : Str) : Str := stripProtocolsGo l.length l

/-- Python str.strip("_"): remove leading and trailing underscores. -/
def stripUnderscores (l : Str) : Str :=
  ((l.dropWhile (· == '_')).reverse.dropWhile (· == '_')).reverse

/-- Embedding of sanitise_hostname from krakenbuster/output.py. -/
def sanitise_hostname (target : Str) : Str :=
  stripUnderscores
    ((stripProtocols target).map (fun c => if c.isAlphanum then c else '_'))

example : parse_size (strL "200      42l      128w     1523c http://x/admin") = 0 := by decide
example : parse_size (strL "(CODE:200|SIZE:11297)") = 11297 := by decide
example : parse_url (strL "200      42l      128w     1523c http://x/admin") = strL "http://x/admin" := by decide
example : parse_url (strL "+ http://x/a(CODE:200|SIZE:11297)") = strL "http://x/a" := by decide
example : parse_progress (strL "Progress: 1234 / 5000 (24.68%)") = some (1234, 5000) := by decide
example : parse_progress (strL ":: Progress: [1234/5000]") = some (1234, 5000) := by decide
example : parse_progress (strL "45%") = some (45, 100) := by decide
example : parse_progress (strL "150%") = none := by decide
example : parse_progress (strL "5/3") = none := by decide
example : sanitise_hostname (strL "http://example.com/") = strL "example_com" := by decide
example : sanitise_hostname (strL "http://a.http://b_") = strL "a_b" := by decide

example : parse_progress (strL "Progress: 5/0 then 45%") = some (45, 100) := by decide

/-- Embedding of the ScanLine dataclass from krakenbuster/scanners/base.py. -/
structure ScanLine where
  raw : Str
  is_stderr : Bool := false
  deriving Repr, DecidableEq

/-- Embedding of the ScanOutputLine message from
krakenbuster/screens/scanning.py: a scan line tagged with the scanner
identifier, together with the arrival time observed by time.time()
when the handler appends a rate sample. -/
structure ScanOutputLine where
  line : ScanLine
  scanner_id : Str := strL "primary"
  time : ℚ := 0
  deriving Repr, DecidableEq

/-- Embedding of the ScanResult dataclass from krakenbuster/output.py. -/
structure ScanResult where
  tool : Str := []
  mode : Str := []
  target : Str := []
  wordlist : Str := []
  total_words : Nat := 0
  duration_seconds : ℚ := 0
  findings : List Finding := []
  raw_lines : List Str := []
  stderr_lines : List Str := []
  errors : Nat := 0

/-- Append to the bounded rate-sample deque of ScanningScreen: a
collections.deque with maxlen 50 drops its oldest element when a new
timestamp is appended to a full deque. -/
def pushRateSample (samples : List ℚ) (t : ℚ) : List ℚ :=
  let d := samples ++ [t]
  if 50 < d.length then d.drop (d.length - 50) else d

/-- The throughput computation of ScanningScreen._refresh_stats: count
the retained rate samples within the trailing five-second window and
divide by five; zero when no retained sample is in the window. -/
def refreshRate (now : ℚ) (samples : List ℚ) : ℚ :=
  let recent := samples.filter (fun t => now - t ≤ 5)
  if recent.isEmpty then 0 else (recent.length : ℚ) / 5

/-- The per-scan mutable state of ScanningScreen touched by the
output-line handler (display widgets and file writes are external
effects and are not part of the state). -/
structure CoordState where
  lines_received : Nat := 0
  vhost_lines_received : Nat := 0
  raw_lines : List Str := []
  vhost_raw_lines : List Str := []
  stderr_lines : List Str := []
  vhost_stderr_lines : List Str := []
  findings : List Finding := []
  vhost_findings : List Finding := []
  rate_samples : List ℚ := []
  errors : Nat := 0

/-- Embedding of ScanningScreen.on_scan_output_line: stderr lines go to
the error logs only; stdout lines are counted, logged, sampled for the
rate window (primary scanner only), classified, and appended to the
scanner's finding list when classification yields a Finding. -/
def on_scan_output_line (st : CoordState) (m : ScanOutputLine) : CoordState :=
  if m.line.is_stderr then
    if m.scanner_id == strL "vhost" then
      { st with vhost_stderr_lines := st.vhost_stderr_lines ++ [m.line.raw] }
    else
      { st with stderr_lines := st.stderr_lines ++ [m.line.raw] }
  else
    let st :=
      if m.scanner_id == strL "vhost" then
        { st with vhost_lines_received := st.vhost_lines_received + 1,
                  vhost_raw_lines := st.vhost_raw_lines ++ [m.line.raw] }
      else
        { st with lines_received := st.lines_received + 1,
                  raw_lines := st.raw_lines ++ [m.line.raw],
                  rate_samples := pushRateSample st.rate_samples m.time }
    match parse_finding m.line.raw with
    | some f =>
      if m.scanner_id == strL "vhost" then
        { st with vhost_findings := st.vhost_findings ++ [f] }
      else
        { st with findings := st.findings ++ [f] }
    | none => st

/-- Embedding of the ScanResult construction in
ScanningScreen._finalise: the aggregate result merges the primary and
vhost finding lists and stderr logs. -/
def finalise (st : CoordState) (tool mode target wordlist : Str)
    (total_words : Nat) (duration : ℚ) : ScanResult :=
  { tool := tool
    mode := mode
    target := target
    wordlist := wordlist
    total_words := total_words
    duration_seconds := duration
    findings := st.findings ++ st.vhost_findings
    raw_lines := st.raw_lines
    stderr_lines := st.stderr_lines ++ st.vhost_stderr_lines
    errors := st.errors }

/-- The completion-tracking state of ScanningScreen: the completed
counter, the session's scanner count, and how many times the
finalising worker has been launched. -/
structure SessionState where
  completed_scanners : Nat := 0
  total_scanners : Nat := 1
  finalise_runs : Nat := 0
  deriving Repr, DecidableEq

/-- Embedding of ScanningScreen.on_scan_complete: increment the
completed counter and launch the finalising worker when it reaches the
session's scanner count. -/
def on_scan_complete (st : SessionState) : SessionState :=
  let c := st.completed_scanners + 1
  { st with
    completed_scanners := c
    finalise_runs :=
      if st.total_scanners ≤ c then st.finalise_runs + 1 else st.finalise_runs }

/-- Trace entries of the cancel model. -/
inductive CancelAction where
  | terminate
  | sleepMs (ms : Nat)
  | kill
  deriving Repr, DecidableEq

/-- Environment of one BaseScanner.cancel invocation: whether a process
was ever spawned, its exit code when cancel is entered, its exit code
after the grace period, and whether the terminate signal hits a
process that disappeared in between (raising ProcessLookupError). -/
structure CancelEnv where
  started : Bool
  rc0 : Option Int
  rcAfterGrace : Option Int
  terminatePLE : Bool

/-- Embedding of BaseScanner.cancel from krakenbuster/scanners/base.py:
the returned trace lists the performed actions in order, and the flag
records whether an exception escapes to the caller (the body catches
ProcessLookupError around the terminate/sleep/kill sequence). -/
def cancelRun (env : CancelEnv) : List CancelAction × Bool :=
  if env.started && env.rc0 == none then
    if env.terminatePLE then
      ([CancelAction.terminate], false)
    else if env.rcAfterGrace == none then
      ([CancelAction.terminate, CancelAction.sleepMs 500, CancelAction.kill], false)
    else
      ([CancelAction.terminate, CancelAction.sleepMs 500], false)
  else ([], false)

/-- Python substring containment (the in operator on strings). -/
def hasInfix (pat : Str) : Str → Bool
  | [] => pat.isPrefixOf []
  | c :: t => pat.isPrefixOf (c :: t) || hasInfix pat t

/-- Python str.strip with an explicit character predicate: remove
matching characters from both ends. -/
def stripBoth (p : Char → Bool) (l : Str) : Str :=
  ((l.dropWhile p).reverse.dropWhile p).reverse

/-- Python str.split(",") keeping empty fields. -/
def splitComma : Str → List Str
  | [] => [[]]
  | c :: t =>
    if c == ',' then [] :: splitComma t
    else
      match splitComma t with
      | h :: r => (c :: h) :: r
      | [] => [[c]]

/-- Python str.lower restricted to ASCII. -/
def pyLower (l : Str) : Str := l.map Char.toLower

/-- Python str() of a bool, as used by the option-dictionary defaults. -/
def pyStrBool (b : Bool) : Str := if b then strL "True" else strL "False"

/-- Embedding of BaseScanner._get_opt: dictionary lookup with a string
default. -/
def getOpt (opts : Str → Option Str) (key default : Str) : Str :=
  (opts key).getD default

/-- Embedding of BaseScanner._get_opt_bool: the looked-up value (or the
printed default) is lowercased and compared against the truthy set. -/
def getOptBool (opts : Str → Option Str) (key : Str) (default : Bool) : Bool :=
  let val := pyLower ((opts key).getD (pyStrBool default))
  val == strL "true" || val == strL "1" || val == strL "yes" || val == strL "on"

/-- The extension-list rewriting shared by the ffuf, dirb, and wfuzz
builders: split on commas, keep fields that are nonempty after
whitespace strip, strip dots from each kept field and prepend one dot,
join with commas. -/
def extList (extensions : Str) : Str :=
  List.intercalate (strL ",")
    (((splitComma extensions).filter
        (fun e => !(stripBoth isSpaceChar e).isEmpty)).map
      (fun e => '.' :: stripBoth (· == '.') e))

def replaceFUZZextGo : Nat → Str → Str
  | 0, l => l
  | _ + 1, [] => []
  | f + 1, c :: t =>
    if (strL "FUZZ").isPrefixOf (c :: t) then
      strL "FUZZ\x7bext\x7d" ++ replaceFUZZextGo f (t.drop 3)
    else c :: replaceFUZZextGo f t

/-- Python str.replace("FUZZ", "FUZZ\x7bext\x7d") as used by the wfuzz
builder: left-to-right non-overlapping replacement.  The fuel argument
only bounds the recursion depth and never runs out when set to the
input length. -/
def replaceFUZZext (l : Str) : Str := replaceFUZZextGo l.length l

/-- Command assembly of FeroxbusterScanner.build_command from the six
option values, in source read order. -/
def feroxbusterCmd (target wordlist depth extensions threads rate_limit proxy
    status_codes : Str) : List Str :=
  let cmd := [strL "feroxbuster", strL "-u", target, strL "-w", wordlist]
  let cmd := cmd ++ [strL "-d", depth]
  let cmd := if !extensions.isEmpty then cmd ++ [strL "-x", extensions] else cmd
  let cmd := cmd ++ [strL "-t", threads]
  let cmd := cmd ++ [strL "--rate-limit", rate_limit]
  let cmd := if !proxy.isEmpty then cmd ++ [strL "-p", proxy] else cmd
  let cmd := if !status_codes.isEmpty then cmd ++ [strL "-s", status_codes] else cmd
  cmd ++ [strL "--no-state"]

/-- Embedding of FeroxbusterScanner.build_command: the option reads are
hoisted in front of the assembly, preserving their source order. -/
def feroxbusterBuild (target wordlist : Str) (opts : Str → Option Str) : List Str :=
  feroxbusterCmd target wordlist
    (getOpt opts (strL "depth") (strL "3"))
    (getOpt opts (strL "extensions") (strL "php,html,txt,js"))
    (getOpt opts (strL "threads") (strL "50"))
    (getOpt opts (strL "rate_limit") (strL "200"))
    (getOpt opts (strL "proxy") [])
    (getOpt opts (strL "status_codes") (strL "200,204,301,302,307,401,403"))

/-- Command assembly of FfufScanner._build_dir_command. -/
def ffufDirCmd (target wordlist extensions threads rate_limit proxy filter_codes
    filter_size : Str) : List Str :=
  let target := rstripChars (· == '/') target
  let target := if hasInfix (strL "FUZZ") target then target else target ++ strL "/FUZZ"
  let cmd := [strL "ffuf", strL "-u", target, strL "-w", wordlist]
  let cmd := if !extensions.isEmpty then cmd ++ [strL "-e", extList extensions] else cmd
  let cmd := cmd ++ [strL "-t", threads]
  let cmd := cmd ++ [strL "-rate", rate_limit]
  let cmd := if !proxy.isEmpty then cmd ++ [strL "-x", proxy] else cmd
  let cmd := if !filter_codes.isEmpty then cmd ++ [strL "-fc", filter_codes] else cmd
  let cmd := if !filter_size.isEmpty then cmd ++ [strL "-fs", filter_size] else cmd
  cmd ++ [strL "-c"]

/-- Command assembly of FfufScanner._build vhost_command. -/
def ffufVhostCmd (target wordlist domain threads rate_limit proxy filter_codes
    filter_size : Str) : List Str :=
  let cmd := [strL "ffuf", strL "-u", target, strL "-w", wordlist,
              strL "-H", strL "Host: FUZZ." ++ domain]
  let cmd := cmd ++ [strL "-t", threads]
  let cmd := cmd ++ [strL "-rate", rate_limit]
  let cmd := if !proxy.isEmpty then cmd ++ [strL "-x", proxy] else cmd
  let cmd := if !filter_codes.isEmpty then cmd ++ [strL "-fc", filter_codes] else cmd
  let cmd := if !filter_size.isEmpty then cmd ++ [strL "-fs", filter_size] else cmd
  cmd ++ [strL "-c"]

/-- Embedding of FfufScanner.build_command with its mode dispatch. -/
def ffufBuild (mode target wordlist : Str) (opts : Str → Option Str) : List Str :=
  if mode == strL "vhost" then
    ffufVhostCmd target wordlist
      (getOpt opts (strL "domain") [])
      (getOpt opts (strL "threads") (strL "50"))
      (getOpt opts (strL "rate_limit") (strL "200"))
      (getOpt opts (strL "proxy") [])
      (getOpt opts (strL "filter_codes") (strL "400,404"))
      (getOpt opts (strL "filter_size") [])
  else
    ffufDirCmd target wordlist
      (getOpt opts (strL "extensions") (strL "php,html,txt,js"))
      (getOpt opts (strL "threads") (strL "50"))
      (getOpt opts (strL "rate_limit") (strL "200"))
      (getOpt opts (strL "proxy") [])
      (getOpt opts (strL "filter_codes") (strL "400,404"))
      (getOpt opts (strL "filter_size") [])

/-- Command assembly of GobusterScanner._build_dir_command. -/
def gobusterDirCmd (target wordlist extensions threads status_codes proxy : Str)
    (follow_redirects expanded : Bool) : List Str :=
  let cmd := [strL "gobuster", strL "dir", strL "-u", target, strL "-w", wordlist]
  let cmd := if !extensions.isEmpty then cmd ++ [strL "-x", extensions] else cmd
  let cmd := cmd ++ [strL "-t", threads]
  let cmd := if !status_codes.isEmpty then cmd ++ [strL "-s", status_codes] else cmd
  let cmd := if !proxy.isEmpty then cmd ++ [strL "--proxy", proxy] else cmd
  let cmd := if follow_redirects then cmd ++ [strL "-r"] else cmd
  let cmd := if expanded then cmd ++ [strL "-e"] else cmd
  cmd ++ [strL "--no-color"]

/-- Command assembly of GobusterScanner._build vhost_command. -/
def gobusterVhostCmd (target wordlist threads proxy : Str) (append_domain : Bool)
    (domain : Str) : List Str :=
  let cmd := [strL "gobuster", strL "vhost", strL "-u", target, strL "-w", wordlist]
  let cmd := cmd ++ [strL "-t", threads]
  let cmd := if !proxy.isEmpty then cmd ++ [strL "--proxy", proxy] else cmd
  let cmd := if append_domain then cmd ++ [strL "--append-domain"] else cmd
  let cmd := if !domain.isEmpty then cmd ++ [strL "--domain", domain] else cmd
  cmd ++ [strL "--no-color"]

/-- Command assembly of GobusterScanner._build_dns_command. -/
def gobusterDnsCmd (target wordlist threads resolver : Str) (show_ips : Bool) :
    List Str :=
  let cmd := [strL "gobuster", strL "dns", strL "-d", target, strL "-w", wordlist]
  let cmd := cmd ++ [strL "-t", threads]
  let cmd := if !resolver.isEmpty then cmd ++ [strL "-r", resolver] else cmd
  let cmd := if show_ips then cmd ++ [strL "-i"] else cmd
  cmd ++ [strL "--no-color"]

/-- Embedding of GobusterScanner.build_command with its mode dispatch. -/
def gobusterBuild (mode target wordlist : Str) (opts : Str → Option Str) : List Str :=
  if mode == strL "vhost" then
    gobusterVhostCmd target wordlist
      (getOpt opts (strL "threads") (strL "50"))
      (getOpt opts (strL "proxy") [])
      (getOptBool opts (strL "append_domain") true)
      (getOpt opts (strL "domain") [])
  else if mode == strL "dns" then
    gobusterDnsCmd target wordlist
      (getOpt opts (strL "threads") (strL "50"))
      (getOpt opts (strL "resolver") [])
      (getOptBool opts (strL "show_ips") true)
  else
    gobusterDirCmd target wordlist
      (getOpt opts (strL "extensions") (strL "php,html,txt,js"))
      (getOpt opts (strL "threads") (strL "50"))
      (getOpt opts (strL "status_codes") (strL "200,204,301,302,307,401,403"))
      (getOpt opts (strL "proxy") [])
      (getOptBool opts (strL "follow_redirects") true)
      (getOptBool opts (strL "expanded") false)

/-- Command assembly of DirbScanner.build_command. -/
def dirbCmd (target wordlist extensions : Str) (case_insensitive : Bool)
    (proxy auth : Str) (non_recursive : Bool) : List Str :=
  let cmd := [strL "dirb", target, wordlist]
  let cmd := if !extensions.isEmpty then cmd ++ [strL "-X", extList extensions] else cmd
  let cmd := if case_insensitive then cmd ++ [strL "-i"] else cmd
  let cmd := if !proxy.isEmpty then cmd ++ [strL "-p", proxy] else cmd
  let cmd := if !auth.isEmpty then cmd ++ [strL "-u", auth] else cmd
  let cmd := if non_recursive then cmd ++ [strL "-r"] else cmd
  cmd ++ [strL "-S"]

/-- Embedding of DirbScanner.build_command. -/
def dirbBuild (target wordlist : Str) (opts : Str → Option Str) : List Str :=
  dirbCmd target wordlist
    (getOpt opts (strL "extensions") [])
    (getOptBool opts (strL "case_insensitive") false)
    (getOpt opts (strL "proxy") [])
    (getOpt opts (strL "auth") [])
    (getOptBool opts (strL "non_recursive") false)

/-- Command assembly of WfuzzScanner._build_dir_command, including the
rebuild-from-scratch branch taken when an extensions option is
present (that branch drops the line and word filters, as the source
does). -/
def wfuzzDirCmd (target wordlist threads hide_codes filter_lines filter_words
    proxy extensions : Str) : List Str :=
  let target := rstripChars (· == '/') target
  let target := if hasInfix (strL "FUZZ") target then target else target ++ strL "/FUZZ"
  let cmd := [strL "wfuzz", strL "-w", wordlist, strL "--url", target]
  let cmd := cmd ++ [strL "-t", threads]
  let cmd := if !hide_codes.isEmpty then cmd ++ [strL "--hc", hide_codes] else cmd
  let cmd := if !filter_lines.isEmpty then cmd ++ [strL "--hl", filter_lines] else cmd
  let cmd := if !filter_words.isEmpty then cmd ++ [strL "--hw", filter_words] else cmd
  let cmd := if !proxy.isEmpty then cmd ++ [strL "-p", proxy] else cmd
  let cmd :=
    if !extensions.isEmpty then
      let target_with_ext := replaceFUZZext target
      let cmd := [strL "wfuzz", strL "-w", wordlist,
                  strL "-z", strL "list," ++ extList extensions,
                  strL "--url", target_with_ext, strL "-t", threads]
      let cmd := if !hide_codes.isEmpty then cmd ++ [strL "--hc", hide_codes] else cmd
      if !proxy.isEmpty then cmd ++ [strL "-p", proxy] else cmd
    else cmd
  cmd ++ [strL "-c"]

/-- Command assembly of WfuzzScanner._build vhost_command. -/
def wfuzzVhostCmd (target wordlist domain threads hide_codes filter_lines
    filter_words proxy : Str) : List Str :=
  let cmd := [strL "wfuzz", strL "-w", wordlist, strL "--url", target,
              strL "-H", strL "Host: FUZZ." ++ domain]
  let cmd := cmd ++ [strL "-t", threads]
  let cmd := if !hide_codes.isEmpty then cmd ++ [strL "--hc", hide_codes] else cmd
  let cmd := if !filter_lines.isEmpty then cmd ++ [strL "--hl", filter_lines] else cmd
  let cmd := if !filter_words.isEmpty then cmd ++ [strL "--hw", filter_words] else cmd
  let cmd := if !proxy.isEmpty then cmd ++ [strL "-p", proxy] else cmd
  cmd ++ [strL "-c"]

/-- Embedding of WfuzzScanner.build_command with its mode dispatch. -/
def wfuzzBuild (mode target wordlist : Str) (opts : Str → Option Str) : List Str :=
  if mode == strL "vhost" then
    wfuzzVhostCmd target wordlist
      (getOpt opts (strL "domain") [])
      (getOpt opts (strL "threads") (strL "50"))
      (getOpt opts (strL "hide_codes") (strL "404"))
      (getOpt opts (strL "filter_lines") [])
      (getOpt opts (strL "filter_words") [])
      (getOpt opts (strL "proxy") [])
  else
    wfuzzDirCmd target wordlist
      (getOpt opts (strL "threads") (strL "50"))
      (getOpt opts (strL "hide_codes") (strL "404"))
      (getOpt opts (strL "filter_lines") [])
      (getOpt opts (strL "filter_words") [])
      (getOpt opts (strL "proxy") [])
      (getOpt opts (strL "extensions") [])

/-- Command assembly of DirsearchScanner.build_command. -/
def dirsearchCmd (target wordlist extensions threads proxy : Str)
    (recursive : Bool) (depth filter_codes : Str) (random_agents : Bool) :
    List Str :=
  let cmd := [strL "dirsearch", strL "-u", target, strL "-w", wordlist]
  let cmd := if !extensions.isEmpty then cmd ++ [strL "-e", extensions] else cmd
  let cmd := cmd ++ [strL "-t", threads]
  let cmd := if !proxy.isEmpty then cmd ++ [strL "--proxy", proxy] else cmd
  let cmd :=
    if recursive then
      cmd ++ [strL "-r"] ++ [strL "--max-recursion-depth", depth]
    else cmd
  let cmd := if !filter_codes.isEmpty then cmd ++ [strL "--exclude-status", filter_codes] else cmd
  let cmd := if random_agents then cmd ++ [strL "--random-agent"] else cmd
  cmd

/-- Embedding of DirsearchScanner.build_command.  The depth option is
read only inside the recursive branch in the source; hoisting the pure
read preserves the built command. -/
def dirsearchBuild (target wordlist : Str) (opts : Str → Option Str) : List Str :=
  dirsearchCmd target wordlist
    (getOpt opts (strL "extensions") (strL "php,html,txt,js"))
    (getOpt opts (strL "threads") (strL "50"))
    (getOpt opts (strL "proxy") [])
    (getOptBool opts (strL "recursive") true)
    (getOpt opts (strL "depth") (strL "3"))
    (getOpt opts (strL "filter_codes") (strL "400,404"))
    (getOptBool opts (strL "random_agents") true)

/-- Command assembly of AmassScanner.build_command. -/
def amassCmd (target : Str) (passive : Bool) (wordlist : Str)
    (brute_force : Bool) (timeout resolver max_dns : Str) : List Str :=
  let cmd := [strL "amass", strL "enum", strL "-d", target]
  let cmd := if passive then cmd ++ [strL "-passive"] else cmd
  let cmd := if !wordlist.isEmpty then cmd ++ [strL "-w", wordlist] else cmd
  let cmd := if brute_force then cmd ++ [strL "-brute"] else cmd
  let cmd := if !timeout.isEmpty then cmd ++ [strL "-timeout", timeout] else cmd
  let cmd := if !resolver.isEmpty then cmd ++ [strL "-rf", resolver] else cmd
  let cmd := if !max_dns.isEmpty then cmd ++ [strL "-max-dns-queries", max_dns] else cmd
  cmd

/-- Embedding of AmassScanner.build_command. -/
def amassBuild (target wordlist : Str) (opts : Str → Option Str) : List Str :=
  amassCmd target
    (getOptBool opts (strL "passive") true)
    wordlist
    (getOptBool opts (strL "brute_force") false)
    (getOpt opts (strL "timeout") [])
    (getOpt opts (strL "resolver") [])
    (getOpt opts (strL "max_dns_queries") [])

/-- Command assembly of SubfinderScanner.build_command. -/
def subfinderCmd (target wordlist threads timeout max_time resolver : Str)
    (all_sources recursive : Bool) : List Str :=
  let cmd := [strL "subfinder", strL "-d", target]
  let cmd := if !wordlist.isEmpty then cmd ++ [strL "-w", wordlist] else cmd
  let cmd := cmd ++ [strL "-t", threads]
  let cmd := cmd ++ [strL "-timeout", timeout]
  let cmd := if !max_time.isEmpty then cmd ++ [strL "-max-time", max_time] else cmd
  let cmd := if !resolver.isEmpty then cmd ++ [strL "-rL", resolver] else cmd
  let cmd := if all_sources then cmd ++ [strL "-all"] else cmd
  let cmd := if recursive then cmd ++ [strL "-recursive"] else cmd
  cmd

/-- Embedding of SubfinderScanner.build_command. -/
def subfinderBuild (target wordlist : Str) (opts : Str → Option Str) : List Str :=
  subfinderCmd target wordlist
    (getOpt opts (strL "threads") (strL "30"))
    (getOpt opts (strL "timeout") (strL "30"))
    (getOpt opts (strL "max_time") [])
    (getOpt opts (strL "resolver") [])
    (getOptBool opts (strL "all_sources") true)
    (getOptBool opts (strL "recursive") false)

/-- A constructed scanner: the identity and inputs held by the
BaseScanner instance returned by create_scanner. -/
structure Scanner where
  tool : Str
  mode : Str
  target : Str
  wordlist : Str
  options : Str → Option Str

/-- The eight tool identities of the factory dictionary in
krakenbuster/scanners/base.py. -/
def supportedTools : List Str :=
  [strL "feroxbuster", strL "ffuf", strL "gobuster", strL "dirb",
   strL "wfuzz", strL "dirsearch", strL "amass", strL "subfinder"]

/-- Embedding of create_scanner from krakenbuster/scanners/base.py: an
unrecognised tool identity raises ValueError, modelled as the error
branch; every recognised identity constructs a scanner instance. -/
def create_scanner (tool mode target wordlist : Str)
    (options : Str → Option Str) : Except Str Scanner :=
  if tool ∈ supportedTools then
    Except.ok { tool := tool, mode := mode, target := target,
                wordlist := wordlist, options := options }
  else
    Except.error (strL "Unknown tool: " ++ tool)

/-- Dispatch of the build_command method on the constructed scanner
(the per-class methods of the eight scanner subclasses). -/
def build_command (s : Scanner) : List Str :=
  if s.tool == strL "feroxbuster" then feroxbusterBuild s.target s.wordlist s.options
  else if s.tool == strL "ffuf" then ffufBuild s.mode s.target s.wordlist s.options
  else if s.tool == strL "gobuster" then gobusterBuild s.mode s.target s.wordlist s.options
  else if s.tool == strL "dirb" then dirbBuild s.target s.wordlist s.options
  else if s.tool == strL "wfuzz" then wfuzzBuild s.mode s.target s.wordlist s.options
  else if s.tool == strL "dirsearch" then dirsearchBuild s.target s.wordlist s.options
  else if s.tool == strL "amass" then amassBuild s.target s.wordlist s.options
  else if s.tool == strL "subfinder" then subfinderBuild s.target s.wordlist s.options
  else []

/-- The option keys read by each tool's builder (over all modes). -/
def recognizedKeys (tool : Str) : List Str :=
  if tool == strL "feroxbuster" then
    [strL "depth", strL "extensions", strL "threads", strL "rate_limit",
     strL "proxy", strL "status_codes"]
  else if tool == strL "ffuf" then
    [strL "domain", strL "extensions", strL "threads", strL "rate_limit",
     strL "proxy", strL "filter_codes", strL "filter_size"]
  else if tool == strL "gobuster" then
    [strL "extensions", strL "threads", strL "status_codes", strL "proxy",
     strL "follow_redirects", strL "expanded", strL "append_domain",
     strL "domain", strL "resolver", strL "show_ips"]
  else if tool == strL "dirb" then
    [strL "extensions", strL "case_insensitive", strL "proxy", strL "auth",
     strL "non_recursive"]
  else if tool == strL "wfuzz" then
    [strL "domain", strL "threads", strL "hide_codes", strL "filter_lines",
     strL "filter_words", strL "proxy", strL "extensions"]
  else if tool == strL "dirsearch" then
    [strL "extensions", strL "threads", strL "proxy", strL "recursive",
     strL "depth", strL "filter_codes", strL "random_agents"]
  else if tool == strL "amass" then
    [strL "passive", strL "brute_force", strL "timeout", strL "resolver",
     strL "max_dns_queries"]
  else if tool == strL "subfinder" then
    [strL "threads", strL "timeout", strL "max_time", strL "resolver",
     strL "all_sources", strL "recursive"]
  else []

/-- The documented per-tool defaults: for each recognised key, the
string whose presence in the dictionary is equivalent to the key being
absent (for boolean options this is the printed Python bool). -/
def defaultOpts (tool : Str) : List (Str × Str) :=
  if tool == strL "feroxbuster" then
    [(strL "depth", strL "3"), (strL "extensions", strL "php,html,txt,js"),
     (strL "threads", strL "50"), (strL "rate_limit", strL "200"),
     (strL "proxy", []), (strL "status_codes", strL "200,204,301,302,307,401,403")]
  else if tool == strL "ffuf" then
    [(strL "domain", []), (strL "extensions", strL "php,html,txt,js"),
     (strL "threads", strL "50"), (strL "rate_limit", strL "200"),
     (strL "proxy", []), (strL "filter_codes", strL "400,404"),
     (strL "filter_size", [])]
  else if tool == strL "gobuster" then
    [(strL "extensions", strL "php,html,txt,js"), (strL "threads", strL "50"),
     (strL "status_codes", strL "200,204,301,302,307,401,403"),
     (strL "proxy", []), (strL "follow_redirects", strL "True"),
     (strL "expanded", strL "False"), (strL "append_domain", strL "True"),
     (strL "domain", []), (strL "resolver", []), (strL "show_ips", strL "True")]
  else if tool == strL "dirb" then
    [(strL "extensions", []), (strL "case_insensitive", strL "False"),
     (strL "proxy", []), (strL "auth", []), (strL "non_recursive", strL "False")]
  else if tool == strL "wfuzz" then
    [(strL "domain", []), (strL "threads", strL "50"),
     (strL "hide_codes", strL "404"), (strL "filter_lines", []),
     (strL "filter_words", []), (strL "proxy", []), (strL "extensions", [])]
  else if tool == strL "dirsearch" then
    [(strL "extensions", strL "php,html,txt,js"), (strL "threads", strL "50"),
     (strL "proxy", []), (strL "recursive", strL "True"),
     (strL "depth", strL "3"), (strL "filter_codes", strL "400,404"),
     (strL "random_agents", strL "True")]
  else if tool == strL "amass" then
    [(strL "passive", strL "True"), (strL "brute_force", strL "False"),
     (strL "timeout", []), (strL "resolver", []), (strL "max_dns_queries", [])]
  else if tool == strL "subfinder" then
    [(strL "threads", strL "30"), (strL "timeout", strL "30"),
     (strL "max_time", []), (strL "resolver", []),
     (strL "all_sources", strL "True"), (strL "recursive", strL "False")]
  else []

/-- Insertion into the option dictionary. -/
def setOpt (opts : Str → Option Str) (k v : Str) : Str → Option Str :=
  fun key => if key == k then some v else opts key

/-- Claim C2 (as stated by the spec example): on the fixed example line
the classifier returns status 200 and URL http://x/admin, but the size
classifier returns 0 rather than the 1523 the spec asserts: no size
pattern matches, because the 1523c field has no B or b suffix and the
line has no SIZE:, Size:, or pipe-delimited field. -/
theorem c2_counterexample :
    parse_status_code (strL "200      42l      128w     1523c http://x/admin") = some 200 ∧
    parse_url (strL "200      42l      128w     1523c http://x/admin") = strL "http://x/admin" ∧
    parse_size (strL "200      42l      128w     1523c http://x/admin") ≠ 1523 := by
  refine ⟨by decide, by decide, by decide⟩

/-- Claim C2, amended: on the example line parse_status_code returns
200 and parse_url returns http://x/admin, while parse_size returns 0
because none of its four patterns matches the line. -/
theorem c2_example_classification :
    parse_status_code (strL "200      42l      128w     1523c http://x/admin") = some 200 ∧
    parse_url (strL "200      42l      128w     1523c http://x/admin") = strL "http://x/admin" ∧
    parse_size (strL "200      42l      128w     1523c http://x/admin") = 0 := by
  refine ⟨by decide, by decide, by decide⟩

/-- Claim C10: every Finding built by parse_finding keeps the words,
lines and redirect fields at their dataclass defaults, and its size is
the parse_size value of the line, which is zero when no size pattern
matches (sizes are naturals, hence never negative). -/
theorem c10_parse_finding_defaults (l : Str) (f : Finding)
    (h : parse_finding l = some f) :
    f.words = 0 ∧ f.lines = 0 ∧ f.redirect = [] ∧ f.size = parse_size l ∧
    (firstSome sizePatterns l = none → f.size = 0) := by
  unfold parse_finding at h
  cases hs : parse_status_code l with
  | none => rw [hs] at h; exact absurd h (by simp)
  | some v =>
    rw [hs] at h
    simp only [Option.some.injEq] at h
    subst h
    refine ⟨rfl, rfl, rfl, rfl, ?_⟩
    intro hnone
    simp [parse_size, hnone]

/-- Witness for claim C10 at a concrete dirb-style line. -/
theorem c10_witness :
    parse_finding (strL "(CODE:200|SIZE:11297)") =
      some { status_code := 200, url := [], size := 11297 } ∧
    (11297 = parse_size (strL "(CODE:200|SIZE:11297)") ∧
      ({ status_code := 200, url := [], size := 11297 } : Finding).words = 0) := by
  have h :=
    c10_parse_finding_defaults (strL "(CODE:200|SIZE:11297)")
      { status_code := 200, url := [], size := 11297 } (by decide)
  exact ⟨by decide, h.2.2.2.1, h.1⟩

/-- The hostname sanitisation described by the words of claim C6:
strip a leading protocol, then replace every non-alphanumeric
character of the remainder by an underscore, keeping every character.
Stated only to compare with the implementation. -/
def specSanitise (target : Str) : Str :=
  (if (strL "https://").isPrefixOf target then target.drop 8
   else if (strL "http://").isPrefixOf target then target.drop 7
   else target).map (fun c => if c.isAlphanum then c else '_')

/-- Claim C6 (as stated): refuted at a concrete target.  The
implementation removes every occurrence of a protocol marker (not just
a leading prefix) and then strips leading and trailing underscores, so
the result differs from the keep-or-replace image of the de-prefixed
input. -/
theorem c6_counterexample :
    sanitise_hostname (strL "http://a.http://b_") = strL "a_b" ∧
    specSanitise (strL "http://a.http://b_") = strL "a_http___b_" ∧
    sanitise_hostname (strL "http://a.http://b_") ≠
      specSanitise (strL "http://a.http://b_") := by
  refine ⟨by decide, by decide, by decide⟩

/-- Claim C6, amended: sanitise_hostname removes every occurrence of
http:// or https://, maps each remaining character to itself when
alphanumeric and to an underscore otherwise, and finally strips
leading and trailing underscores. -/
theorem c6_sanitise_amended (target : Str) :
    sanitise_hostname target =
      stripUnderscores
        (List.map (fun c => if c.isAlphanum then c else '_') (stripProtocols target)) ∧
    ∀ c ∈ stripProtocols target,
      (c.isAlphanum = true → (if c.isAlphanum then c else '_') = c) ∧
      (c.isAlphanum = false → (if c.isAlphanum then c else '_') = '_') := by
  refine ⟨rfl, fun c _ => ⟨fun h => by simp [h], fun h => by simp [h]⟩⟩

/-- Witness for claim C6 at a concrete target containing a dot. -/
theorem c6_witness :
    sanitise_hostname (strL "https://x.y/") =
      stripUnderscores
        (List.map (fun c => if c.isAlphanum then c else '_')
          (stripProtocols (strL "https://x.y/"))) ∧
    (if ('.').isAlphanum then '.' else '_') = '_' := by
  have h := c6_sanitise_amended (strL "https://x.y/")
  exact ⟨h.1, (h.2 '.' (by decide)).2 (by decide)⟩

/-- Claim C9: cancel never lets an exception escape; on a process with
an exit code it performs no action at all; on a live process it sends
terminate, sleeps the 500 millisecond grace period, and kills exactly
when the process has no exit code after the grace period; a kill is
only ever issued when the process is still alive after the grace
period. -/
theorem c9_cancel (env : CancelEnv) :
    (cancelRun env).2 = false ∧
    (env.rc0.isSome → cancelRun env = ([], false)) ∧
    (env.started = true → env.rc0 = none → env.terminatePLE = false →
      (cancelRun env).1 =
        [CancelAction.terminate, CancelAction.sleepMs 500] ++
          (if env.rcAfterGrace = none then [CancelAction.kill] else [])) ∧
    (CancelAction.kill ∈ (cancelRun env).1 → env.rcAfterGrace = none) := by
  obtain ⟨started, rc0, rc1, ple⟩ := env
  refine ⟨?_, ?_, ?_, ?_⟩ <;>
    cases started <;> cases rc0 <;> cases ple <;> cases rc1 <;>
      simp_all [cancelRun]

/-- Witness for claim C9: a process that already exited with code 0. -/
theorem c9_witness :
    cancelRun { started := true, rc0 := some 0, rcAfterGrace := some 0,
                terminatePLE := false } = ([], false) :=
  (c9_cancel _).2.1 rfl

/-- Claim C5: starting from a fresh session with at least one scanner,
after k of the session's completion signals the completed counter is
exactly k and never exceeds the scanner count, and the finalising
worker has been launched exactly once if k equals the scanner count
and never otherwise.  The hypothesis that each scanner signals exactly
once bounds k by the scanner count. -/
theorem c5_completion (total k : Nat) (h1 : 1 ≤ total) (hk : k ≤ total) :
    (on_scan_complete^[k]
        { completed_scanners := 0, total_scanners := total,
          finalise_runs := 0 }).completed_scanners = k ∧
    (on_scan_complete^[k]
        { completed_scanners := 0, total_scanners := total,
          finalise_runs := 0 }).completed_scanners ≤ total ∧
    (on_scan_complete^[k]
        { completed_scanners := 0, total_scanners := total,
          finalise_runs := 0 }).finalise_runs = (if k = total then 1 else 0) := by
  have key : ∀ m, m ≤ total →
      on_scan_complete^[m]
        { completed_scanners := 0, total_scanners := total, finalise_runs := 0 } =
      { completed_scanners := m, total_scanners := total,
        finalise_runs := if m = total then 1 else 0 } := by
    intro m
    induction m with
    | zero =>
      intro _
      simp only [Function.iterate_zero, id_eq]
      have : ¬ 0 = total := by omega
      simp [this]
    | succ n ih =>
      intro hle
      rw [Function.iterate_succ_apply', ih (by omega)]
      have hn : ¬ n = total := by omega
      simp only [hn, if_false, on_scan_complete]
      by_cases he : n + 1 = total
      · simp [he]
      · have : ¬ total ≤ n + 1 := by omega
        simp [he, this]
  rw [key k hk]
  exact ⟨rfl, hk, rfl⟩

/-- Witness for claim C5: a combined-mode session with two scanners
that both signal completion. -/
theorem c5_witness :
    (on_scan_complete^[2]
        { completed_scanners := 0, total_scanners := 2,
          finalise_runs := 0 }).completed_scanners = 2 ∧
    (on_scan_complete^[2]
        { completed_scanners := 0, total_scanners := 2,
          finalise_runs := 0 }).finalise_runs = 1 := by
  have h := c5_completion 2 2 (by omega) (by omega)
  exact ⟨h.1, by rw [h.2.2]; simp⟩

/-- The last n elements of a list. -/
def lastN {α : Type} (n : Nat) (l : List α) : List α := l.drop (l.length - n)

/-- One deque append always keeps exactly the last 50 elements. -/
theorem pushRateSample_eq_lastN (d : List ℚ) (t : ℚ) :
    pushRateSample d t = lastN 50 (d ++ [t]) := by
  unfold pushRateSample lastN
  by_cases h : 50 < (d ++ [t]).length
  · rw [if_pos h]
  · rw [if_neg h]
    have h0 : (d ++ [t]).length - 50 = 0 := by omega
    rw [h0, List.drop_zero]

/-- Keeping the last n of a list whose front part was already cut to
its last n elements cuts the same suffix. -/
theorem lastN_lastN_append {α : Type} (n : Nat) (a b : List α) :
    lastN n (lastN n a ++ b) = lastN n (a ++ b) := by
  unfold lastN
  rcases le_or_lt a.length n with h | h
  · have : a.length - n = 0 := by omega
    simp [this]
  · have hlen : (a.drop (a.length - n)).length = n := by
      simp
      omega
    rw [List.drop_append_eq_append_drop, List.drop_append_eq_append_drop,
        List.drop_drop]
    congr 2 <;> simp [hlen] <;> omega

/-- Folding the deque append over an arbitrary timestamp sequence
retains exactly the last 50 timestamps. -/
theorem foldl_pushRateSample (ts : List ℚ) :
    ts.foldl pushRateSample [] = lastN 50 ts := by
  suffices h : ∀ d : List ℚ, ts.foldl pushRateSample (lastN 50 d) = lastN 50 (d ++ ts) by
    simpa using h []
  induction ts with
  | nil => intro d; simp
  | cons t ts ih =>
    intro d
    rw [List.foldl_cons, pushRateSample_eq_lastN, lastN_lastN_append, ih (d ++ [t])]
    simp

/-- Claim C1, amended: on every statistics refresh the reported rate
equals the number of timestamps within the trailing five-second window
among the retained rate samples, which are only the last 50 primary
timestamps, divided by five.  When more than 50 lines arrive within
the window the rate is therefore capped at ten per second. -/
theorem c1_rate_amended (now : ℚ) (ts : List ℚ) :
    refreshRate now (ts.foldl pushRateSample []) =
      ((lastN 50 ts).filter (fun t => now - t ≤ 5)).length / 5 := by
  rw [foldl_pushRateSample]
  show (if ((lastN 50 ts).filter (fun t => now - t ≤ 5)).isEmpty then (0:ℚ)
        else ((lastN 50 ts).filter (fun t => now - t ≤ 5)).length / 5) = _
  by_cases h : ((lastN 50 ts).filter (fun t => now - t ≤ 5)).isEmpty
  · rw [if_pos h]
    rw [List.isEmpty_iff] at h
    rw [h]
    simp
  · rw [if_neg h]

/-- The timestamps the output-line handler feeds into the rate deque:
one per primary-scanner stdout line, in arrival order. -/
def primaryTimes (evs : List ScanOutputLine) : List ℚ :=
  (evs.filter
      (fun m => !m.line.is_stderr && !(m.scanner_id == strL "vhost"))).map
    (fun m => m.time)

/-- One handler step touches the rate deque exactly on primary stdout
lines, appending the arrival timestamp. -/
theorem on_scan_output_line_rate (st : CoordState) (m : ScanOutputLine) :
    (on_scan_output_line st m).rate_samples =
      (if !m.line.is_stderr && !(m.scanner_id == strL "vhost")
       then pushRateSample st.rate_samples m.time
       else st.rate_samples) := by
  unfold on_scan_output_line
  by_cases h1 : m.line.is_stderr
  · by_cases h2 : (m.scanner_id == strL "vhost") = true <;> simp [h1, h2]
  · by_cases h2 : (m.scanner_id == strL "vhost") = true
    · cases hf : parse_finding m.line.raw <;> simp [h1, h2, hf]
    · cases hf : parse_finding m.line.raw <;> simp [h1, h2, hf]

/-- Folding the output-line handler over an event sequence feeds the
rate deque exactly the primary stdout timestamps, in order. -/
theorem foldl_handler_rate_samples (evs : List ScanOutputLine) :
    ∀ st : CoordState,
      (evs.foldl on_scan_output_line st).rate_samples =
        (primaryTimes evs).foldl pushRateSample st.rate_samples := by
  induction evs with
  | nil => intro st; rfl
  | cons m evs ih =>
    intro st
    rw [List.foldl_cons, ih, on_scan_output_line_rate]
    unfold primaryTimes
    rw [List.filter_cons]
    cases hp : (!m.line.is_stderr && !(m.scanner_id == strL "vhost")) <;> simp [hp]

/-- Claim C1 (as stated): refuted on a session that received 250
primary stdout lines within the last five seconds.  Feeding the
handler's 250 timestamps through the rate deque and refreshing at time
0 reports a rate of 10 lines per second, because the deque retains
only the last 50 timestamps, while the claim demands 250/5 = 50. -/
theorem c1_counterexample :
    refreshRate 0
      (((List.replicate 250
          ({ line := { raw := strL "x" }, scanner_id := strL "primary",
             time := 0 } : ScanOutputLine)).foldl on_scan_output_line
        {}).rate_samples) = 10 ∧
    ((primaryTimes (List.replicate 250
        ({ line := { raw := strL "x" }, scanner_id := strL "primary",
           time := 0 } : ScanOutputLine))).filter
      (fun t => (0:ℚ) - t ≤ 5)).length = 250 ∧
    (10 : ℚ) ≠ 250 / 5 := by
  have hpt : primaryTimes (List.replicate 250
      ({ line := { raw := strL "x" }, scanner_id := strL "primary",
         time := 0 } : ScanOutputLine)) = List.replicate 250 (0 : ℚ) := by
    unfold primaryTimes
    rw [List.filter_replicate, if_pos (by decide), List.map_replicate]
  refine ⟨?_, ?_, by norm_num⟩
  · rw [foldl_handler_rate_samples, hpt]
    show refreshRate 0 ((List.replicate 250 (0:ℚ)).foldl pushRateSample []) = 10
    rw [foldl_pushRateSample]
    have hl : lastN 50 (List.replicate 250 (0:ℚ)) = List.replicate 50 (0:ℚ) := by
      unfold lastN
      rw [List.length_replicate, List.drop_replicate]
    rw [hl]
    show (if ((List.replicate 50 (0:ℚ)).filter (fun t => (0:ℚ) - t ≤ 5)).isEmpty
          then (0:ℚ)
          else ((List.replicate 50 (0:ℚ)).filter (fun t => (0:ℚ) - t ≤ 5)).length / 5) = 10
    rw [List.filter_replicate]
    norm_num
  · rw [hpt, List.filter_replicate]
    norm_num

/-- A line yields a Finding exactly when it yields a status code. -/
theorem parse_finding_isSome (l : Str) :
    (parse_finding l).isSome = (parse_status_code l).isSome := by
  unfold parse_finding
  cases parse_status_code l <;> rfl

/-- The count of events that produce a Finding: stdout lines whose
status classification is non-absent, over both scanners. -/
def findingLines (evs : List ScanOutputLine) : Nat :=
  evs.countP
    (fun m => !m.line.is_stderr && (parse_status_code m.line.raw).isSome)

/-- The count of events whose raw text classifies to a non-absent
status code, error-stream lines included: the count named by the claim
as stated. -/
def statusLines (evs : List ScanOutputLine) : Nat :=
  evs.countP (fun m => (parse_status_code m.line.raw).isSome)

/-- One handler step grows the combined finding lists by one exactly on
a stdout line with a non-absent status classification. -/
theorem on_scan_output_line_findings (st : CoordState) (m : ScanOutputLine) :
    (on_scan_output_line st m).findings.length
        + (on_scan_output_line st m).vhost_findings.length =
      st.findings.length + st.vhost_findings.length +
        (if !m.line.is_stderr && (parse_status_code m.line.raw).isSome
         then 1 else 0) := by
  have hps : (parse_status_code m.line.raw).isSome
      = (parse_finding m.line.raw).isSome := (parse_finding_isSome _).symm
  unfold on_scan_output_line
  by_cases h1 : m.line.is_stderr
  · by_cases h2 : (m.scanner_id == strL "vhost") = true <;> simp [h1, h2]
  · by_cases h2 : (m.scanner_id == strL "vhost") = true <;>
      cases hf : parse_finding m.line.raw <;>
        simp [h1, h2, hf, hps] <;> omega

/-- Folding the handler over an event sequence grows the combined
finding lists by exactly the number of classifiable stdout lines. -/
theorem foldl_handler_findings (evs : List ScanOutputLine) :
    ∀ st : CoordState,
      (evs.foldl on_scan_output_line st).findings.length
          + (evs.foldl on_scan_output_line st).vhost_findings.length =
        st.findings.length + st.vhost_findings.length + findingLines evs := by
  induction evs with
  | nil => intro st; simp [findingLines]
  | cons m evs ih =>
    intro st
    rw [List.foldl_cons, ih]
    unfold findingLines
    rw [List.countP_cons]
    have := on_scan_output_line_findings st m
    omega

/-- Claim C3 (as stated): refuted by a single error-stream event whose
text happens to classify to a status code.  The handler routes
error-stream lines to the error log without classifying them, so the
finalised result has no finding although the count of events whose
text classifies to a non-absent status is one. -/
theorem c3_counterexample :
    (finalise
        ([({ line := { raw := strL "500 Internal Server Error",
                       is_stderr := true } } : ScanOutputLine)].foldl
          on_scan_output_line {})
        [] [] [] [] 0 0).findings.length = 0 ∧
    statusLines
      [({ line := { raw := strL "500 Internal Server Error",
                    is_stderr := true } } : ScanOutputLine)] = 1 := by
  refine ⟨by decide, by decide⟩

/-- Claim C3, amended: for every event sequence, the finalised
aggregate result has exactly one finding per stdout (non-error-stream)
line whose status classification is non-absent, summed over the
primary and vhost scanners. -/
theorem c3_findings_amended (evs : List ScanOutputLine)
    (tool mode target wordlist : Str) (tw : Nat) (dur : ℚ) :
    (finalise (evs.foldl on_scan_output_line {}) tool mode target wordlist
        tw dur).findings.length = findingLines evs := by
  unfold finalise
  simp only [List.length_append]
  have := foldl_handler_findings evs {}
  simpa using this

/-- Every pair returned by the x/y pattern loop satisfies the
positive-total and completed-at-most-total guard. -/
theorem tryProgressPatterns_guard :
    ∀ (ps : List (Str → Option (Nat × Nat))) (l : Str) (d t : Nat),
      tryProgressPatterns ps l = some (d, t) → 0 < t ∧ d ≤ t := by
  intro ps
  induction ps with
  | nil =>
    intro l d t h
    exact absurd h (by simp [tryProgressPatterns])
  | cons p ps ih =>
    intro l d t h
    unfold tryProgressPatterns at h
    cases hp : p l with
    | none =>
      simp only [hp] at h
      exact ih l d t h
    | some v =>
      obtain ⟨a, b⟩ := v
      simp only [hp] at h
      by_cases hg : (0 < b && a ≤ b) = true
      · rw [if_pos hg] at h
        rw [Bool.and_eq_true, decide_eq_true_eq, decide_eq_true_eq] at hg
        obtain ⟨rfl, rfl⟩ : a = d ∧ b = t := by
          injection h with h
          injection h with h1 h2
          exact ⟨h1, h2⟩
        exact hg
      · rw [if_neg hg] at h
        exact ih l d t h

/-- Claim C7: parse_progress returns an x/y pair only when the total is
positive and the completed count does not exceed it; the first x/y
pattern whose match passes that guard wins; when no x/y pattern yields
such a pair the bare-percentage pattern decides the result, returning
(pct, 100) under the guard 0 < pct <= 100 and absent otherwise; and
every returned pair satisfies the guard. -/
theorem c7_parse_progress (l : Str) :
    (∀ d t, tryProgressPatterns progressPatterns l = some (d, t) →
      0 < t ∧ d ≤ t) ∧
    (∀ p, tryProgressPatterns progressPatterns l = some p →
      parse_progress l = some p) ∧
    (tryProgressPatterns progressPatterns l = none →
      parse_progress l =
        match search pgPct l with
        | some pct => if 0 < pct && pct ≤ 100 then some (pct, 100) else none
        | none => none) ∧
    (∀ d t, parse_progress l = some (d, t) → 0 < t ∧ d ≤ t) := by
  refine ⟨fun d t h => tryProgressPatterns_guard _ l d t h, ?_, ?_, ?_⟩
  · intro p h
    unfold parse_progress
    simp only [h]
  · intro h
    unfold parse_progress
    simp only [h]
  · intro d t h
    cases htry : tryProgressPatterns progressPatterns l with
    | some v =>
      unfold parse_progress at h
      simp only [htry] at h
      injection h with h
      subst h
      exact tryProgressPatterns_guard _ l d t htry
    | none =>
      unfold parse_progress at h
      simp only [htry] at h
      cases hpct : search pgPct l with
      | none => simp only [hpct] at h; exact absurd h (by simp)
      | some pct =>
        simp only [hpct] at h
        by_cases hg : (0 < pct && pct ≤ 100) = true
        · rw [if_pos hg] at h
          rw [Bool.and_eq_true, decide_eq_true_eq, decide_eq_true_eq] at hg
          obtain ⟨rfl, rfl⟩ : pct = d ∧ 100 = t := by
            injection h with h
            injection h with h1 h2
            exact ⟨h1, h2⟩
          exact ⟨by omega, hg.2⟩
        · rw [if_neg hg] at h
          exact absurd h (by simp)

/-- Witness for claim C7: a line whose first x/y match fails the guard
(5/0) and which then falls back to the bare percentage 45. -/
theorem c7_witness :
    parse_progress (strL "Progress: 5/0 then 45%") = some (45, 100) := by
  rw [(c7_parse_progress (strL "Progress: 5/0 then 45%")).2.2.1 (by decide)]
  decide

/-- Inserting under a different key leaves a lookup unchanged. -/
theorem getOpt_setOpt_ne (opts : Str → Option Str) (k v key d : Str)
    (h : key ≠ k) : getOpt (setOpt opts k v) key d = getOpt opts key d := by
  simp [getOpt, setOpt, beq_eq_false_iff_ne.mpr h]

/-- Inserting a key's own default where the key was absent leaves the
lookup unchanged. -/
theorem getOpt_setOpt_default (opts : Str → Option Str) (k d : Str)
    (h : opts k = none) : getOpt (setOpt opts k d) k d = getOpt opts k d := by
  simp [getOpt, setOpt, h]

/-- Inserting under a different key leaves a boolean lookup unchanged. -/
theorem getOptBool_setOpt_ne (opts : Str → Option Str) (k v key : Str)
    (b : Bool) (h : key ≠ k) :
    getOptBool (setOpt opts k v) key b = getOptBool opts key b := by
  simp [getOptBool, setOpt, beq_eq_false_iff_ne.mpr h]

/-- Inserting the printed default of a boolean key where the key was
absent leaves the boolean lookup unchanged. -/
theorem getOptBool_setOpt_default (opts : Str → Option Str) (k : Str)
    (b : Bool) (h : opts k = none) :
    getOptBool (setOpt opts k (pyStrBool b)) k b = getOptBool opts k b := by
  simp [getOptBool, setOpt, h]

/-- The feroxbuster builder depends on the dictionary only through its
six reads. -/
theorem feroxbusterBuild_read_ext (t w : Str) (o₁ o₂ : Str → Option Str)
    (h1 : getOpt o₁ (strL "depth") (strL "3") = getOpt o₂ (strL "depth") (strL "3"))
    (h2 : getOpt o₁ (strL "extensions") (strL "php,html,txt,js")
        = getOpt o₂ (strL "extensions") (strL "php,html,txt,js"))
    (h3 : getOpt o₁ (strL "threads") (strL "50") = getOpt o₂ (strL "threads") (strL "50"))
    (h4 : getOpt o₁ (strL "rate_limit") (strL "200") = getOpt o₂ (strL "rate_limit") (strL "200"))
    (h5 : getOpt o₁ (strL "proxy") [] = getOpt o₂ (strL "proxy") [])
    (h6 : getOpt o₁ (strL "status_codes") (strL "200,204,301,302,307,401,403")
        = getOpt o₂ (strL "status_codes") (strL "200,204,301,302,307,401,403")) :
    feroxbusterBuild t w o₁ = feroxbusterBuild t w o₂ := by
  unfold feroxbusterBuild
  rw [h1, h2, h3, h4, h5, h6]

/-- The ffuf builder depends on the dictionary only through its seven
reads. -/
theorem ffufBuild_read_ext (mo t w : Str) (o₁ o₂ : Str → Option Str)
    (h1 : getOpt o₁ (strL "domain") [] = getOpt o₂ (strL "domain") [])
    (h2 : getOpt o₁ (strL "extensions") (strL "php,html,txt,js")
        = getOpt o₂ (strL "extensions") (strL "php,html,txt,js"))
    (h3 : getOpt o₁ (strL "threads") (strL "50") = getOpt o₂ (strL "threads") (strL "50"))
    (h4 : getOpt o₁ (strL "rate_limit") (strL "200") = getOpt o₂ (strL "rate_limit") (strL "200"))
    (h5 : getOpt o₁ (strL "proxy") [] = getOpt o₂ (strL "proxy") [])
    (h6 : getOpt o₁ (strL "filter_codes") (strL "400,404")
        = getOpt o₂ (strL "filter_codes") (strL "400,404"))
    (h7 : getOpt o₁ (strL "filter_size") [] = getOpt o₂ (strL "filter_size") []) :
    ffufBuild mo t w o₁ = ffufBuild mo t w o₂ := by
  unfold ffufBuild
  by_cases hm : (mo == strL "vhost") = true
  · simp only [hm, if_true]
    rw [h1, h3, h4, h5, h6, h7]
  · simp only [hm, Bool.false_eq_true, if_false]
    rw [h2, h3, h4, h5, h6, h7]

/-- The gobuster builder depends on the dictionary only through its ten
reads. -/
theorem gobusterBuild_read_ext (mo t w : Str) (o₁ o₂ : Str → Option Str)
    (h1 : getOpt o₁ (strL "extensions") (strL "php,html,txt,js")
        = getOpt o₂ (strL "extensions") (strL "php,html,txt,js"))
    (h2 : getOpt o₁ (strL "threads") (strL "50") = getOpt o₂ (strL "threads") (strL "50"))
    (h3 : getOpt o₁ (strL "status_codes") (strL "200,204,301,302,307,401,403")
        = getOpt o₂ (strL "status_codes") (strL "200,204,301,302,307,401,403"))
    (h4 : getOpt o₁ (strL "proxy") [] = getOpt o₂ (strL "proxy") [])
    (h5 : getOptBool o₁ (strL "follow_redirects") true
        = getOptBool o₂ (strL "follow_redirects") true)
    (h6 : getOptBool o₁ (strL "expanded") false = getOptBool o₂ (strL "expanded") false)
    (h7 : getOptBool o₁ (strL "append_domain") true
        = getOptBool o₂ (strL "append_domain") true)
    (h8 : getOpt o₁ (strL "domain") [] = getOpt o₂ (strL "domain") [])
    (h9 : getOpt o₁ (strL "resolver") [] = getOpt o₂ (strL "resolver") [])
    (h10 : getOptBool o₁ (strL "show_ips") true = getOptBool o₂ (strL "show_ips") true) :
    gobusterBuild mo t w o₁ = gobusterBuild mo t w o₂ := by
  unfold gobusterBuild
  by_cases hm : (mo == strL "vhost") = true
  · simp only [hm, if_true]
    rw [h2, h4, h7, h8]
  · by_cases hd : (mo == strL "dns") = true
    · simp only [hm, hd, Bool.false_eq_true, if_false, if_true]
      rw [h2, h9, h10]
    · simp only [hm, hd, Bool.false_eq_true, if_false]
      rw [h1, h2, h3, h4, h5, h6]

/-- The dirb builder depends on the dictionary only through its five
reads. -/
theorem dirbBuild_read_ext (t w : Str) (o₁ o₂ : Str → Option Str)
    (h1 : getOpt o₁ (strL "extensions") [] = getOpt o₂ (strL "extensions") [])
    (h2 : getOptBool o₁ (strL "case_insensitive") false
        = getOptBool o₂ (strL "case_insensitive") false)
    (h3 : getOpt o₁ (strL "proxy") [] = getOpt o₂ (strL "proxy") [])
    (h4 : getOpt o₁ (strL "auth") [] = getOpt o₂ (strL "auth") [])
    (h5 : getOptBool o₁ (strL "non_recursive") false
        = getOptBool o₂ (strL "non_recursive") false) :
    dirbBuild t w o₁ = dirbBuild t w o₂ := by
  unfold dirbBuild
  rw [h1, h2, h3, h4, h5]

/-- The wfuzz builder depends on the dictionary only through its seven
reads. -/
theorem wfuzzBuild_read_ext (mo t w : Str) (o₁ o₂ : Str → Option Str)
    (h1 : getOpt o₁ (strL "domain") [] = getOpt o₂ (strL "domain") [])
    (h2 : getOpt o₁ (strL "threads") (strL "50") = getOpt o₂ (strL "threads") (strL "50"))
    (h3 : getOpt o₁ (strL "hide_codes") (strL "404") = getOpt o₂ (strL "hide_codes") (strL "404"))
    (h4 : getOpt o₁ (strL "filter_lines") [] = getOpt o₂ (strL "filter_lines") [])
    (h5 : getOpt o₁ (strL "filter_words") [] = getOpt o₂ (strL "filter_words") [])
    (h6 : getOpt o₁ (strL "proxy") [] = getOpt o₂ (strL "proxy") [])
    (h7 : getOpt o₁ (strL "extensions") [] = getOpt o₂ (strL "extensions") []) :
    wfuzzBuild mo t w o₁ = wfuzzBuild mo t w o₂ := by
  unfold wfuzzBuild
  by_cases hm : (mo == strL "vhost") = true
  · simp only [hm, if_true]
    rw [h1, h2, h3, h4, h5, h6]
  · simp only [hm, Bool.false_eq_true, if_false]
    rw [h2, h3, h4, h5, h6, h7]

/-- The dirsearch builder depends on the dictionary only through its
seven reads. -/
theorem dirsearchBuild_read_ext (t w : Str) (o₁ o₂ : Str → Option Str)
    (h1 : getOpt o₁ (strL "extensions") (strL "php,html,txt,js")
        = getOpt o₂ (strL "extensions") (strL "php,html,txt,js"))
    (h2 : getOpt o₁ (strL "threads") (strL "50") = getOpt o₂ (strL "threads") (strL "50"))
    (h3 : getOpt o₁ (strL "proxy") [] = getOpt o₂ (strL "proxy") [])
    (h4 : getOptBool o₁ (strL "recursive") true = getOptBool o₂ (strL "recursive") true)
    (h5 : getOpt o₁ (strL "depth") (strL "3") = getOpt o₂ (strL "depth") (strL "3"))
    (h6 : getOpt o₁ (strL "filter_codes") (strL "400,404")
        = getOpt o₂ (strL "filter_codes") (strL "400,404"))
    (h7 : getOptBool o₁ (strL "random_agents") true
        = getOptBool o₂ (strL "random_agents") true) :
    dirsearchBuild t w o₁ = dirsearchBuild t w o₂ := by
  unfold dirsearchBuild
  rw [h1, h2, h3, h4, h5, h6, h7]

/-- The amass builder depends on the dictionary only through its five
reads. -/
theorem amassBuild_read_ext (t w : Str) (o₁ o₂ : Str → Option Str)
    (h1 : getOptBool o₁ (strL "passive") true = getOptBool o₂ (strL "passive") true)
    (h2 : getOptBool o₁ (strL "brute_force") false
        = getOptBool o₂ (strL "brute_force") false)
    (h3 : getOpt o₁ (strL "timeout") [] = getOpt o₂ (strL "timeout") [])
    (h4 : getOpt o₁ (strL "resolver") [] = getOpt o₂ (strL "resolver") [])
    (h5 : getOpt o₁ (strL "max_dns_queries") [] = getOpt o₂ (strL "max_dns_queries") []) :
    amassBuild t w o₁ = amassBuild t w o₂ := by
  unfold amassBuild
  rw [h1, h2, h3, h4, h5]

/-- The subfinder builder depends on the dictionary only through its
six reads. -/
theorem subfinderBuild_read_ext (t w : Str) (o₁ o₂ : Str → Option Str)
    (h1 : getOpt o₁ (strL "threads") (strL "30") = getOpt o₂ (strL "threads") (strL "30"))
    (h2 : getOpt o₁ (strL "timeout") (strL "30") = getOpt o₂ (strL "timeout") (strL "30"))
    (h3 : getOpt o₁ (strL "max_time") [] = getOpt o₂ (strL "max_time") [])
    (h4 : getOpt o₁ (strL "resolver") [] = getOpt o₂ (strL "resolver") [])
    (h5 : getOptBool o₁ (strL "all_sources") true = getOptBool o₂ (strL "all_sources") true)
    (h6 : getOptBool o₁ (strL "recursive") false = getOptBool o₂ (strL "recursive") false) :
    subfinderBuild t w o₁ = subfinderBuild t w o₂ := by
  unfold subfinderBuild
  rw [h1, h2, h3, h4, h5, h6]

/-- Unknown keys are ignored by the feroxbuster builder. -/
theorem feroxbusterBuild_unknown (t w : Str) (opts : Str → Option Str)
    (k v : Str) (h : k ∉ recognizedKeys (strL "feroxbuster")) :
    feroxbusterBuild t w (setOpt opts k v) = feroxbusterBuild t w opts := by
  have hk : ∀ key ∈ recognizedKeys (strL "feroxbuster"), key ≠ k :=
    fun key hkey e => h (e ▸ hkey)
  apply feroxbusterBuild_read_ext <;>
    exact getOpt_setOpt_ne _ _ _ _ _ (hk _ (by decide))

/-- Unknown keys are ignored by the ffuf builder. -/
theorem ffufBuild_unknown (mo t w : Str) (opts : Str → Option Str)
    (k v : Str) (h : k ∉ recognizedKeys (strL "ffuf")) :
    ffufBuild mo t w (setOpt opts k v) = ffufBuild mo t w opts := by
  have hk : ∀ key ∈ recognizedKeys (strL "ffuf"), key ≠ k :=
    fun key hkey e => h (e ▸ hkey)
  apply ffufBuild_read_ext <;>
    exact getOpt_setOpt_ne _ _ _ _ _ (hk _ (by decide))

/-- Unknown keys are ignored by the gobuster builder. -/
theorem gobusterBuild_unknown (mo t w : Str) (opts : Str → Option Str)
    (k v : Str) (h : k ∉ recognizedKeys (strL "gobuster")) :
    gobusterBuild mo t w (setOpt opts k v) = gobusterBuild mo t w opts := by
  have hk : ∀ key ∈ recognizedKeys (strL "gobuster"), key ≠ k :=
    fun key hkey e => h (e ▸ hkey)
  apply gobusterBuild_read_ext <;>
    first
      | exact getOpt_setOpt_ne _ _ _ _ _ (hk _ (by decide))
      | exact getOptBool_setOpt_ne _ _ _ _ _ (hk _ (by decide))

/-- Unknown keys are ignored by the dirb builder. -/
theorem dirbBuild_unknown (t w : Str) (opts : Str → Option Str)
    (k v : Str) (h : k ∉ recognizedKeys (strL "dirb")) :
    dirbBuild t w (setOpt opts k v) = dirbBuild t w opts := by
  have hk : ∀ key ∈ recognizedKeys (strL "dirb"), key ≠ k :=
    fun key hkey e => h (e ▸ hkey)
  apply dirbBuild_read_ext <;>
    first
      | exact getOpt_setOpt_ne _ _ _ _ _ (hk _ (by decide))
      | exact getOptBool_setOpt_ne _ _ _ _ _ (hk _ (by decide))

/-- Unknown keys are ignored by the wfuzz builder. -/
theorem wfuzzBuild_unknown (mo t w : Str) (opts : Str → Option Str)
    (k v : Str) (h : k ∉ recognizedKeys (strL "wfuzz")) :
    wfuzzBuild mo t w (setOpt opts k v) = wfuzzBuild mo t w opts := by
  have hk : ∀ key ∈ recognizedKeys (strL "wfuzz"), key ≠ k :=
    fun key hkey e => h (e ▸ hkey)
  apply wfuzzBuild_read_ext <;>
    exact getOpt_setOpt_ne _ _ _ _ _ (hk _ (by decide))

/-- Unknown keys are ignored by the dirsearch builder. -/
theorem dirsearchBuild_unknown (t w : Str) (opts : Str → Option Str)
    (k v : Str) (h : k ∉ recognizedKeys (strL "dirsearch")) :
    dirsearchBuild t w (setOpt opts k v) = dirsearchBuild t w opts := by
  have hk : ∀ key ∈ recognizedKeys (strL "dirsearch"), key ≠ k :=
    fun key hkey e => h (e ▸ hkey)
  apply dirsearchBuild_read_ext <;>
    first
      | exact getOpt_setOpt_ne _ _ _ _ _ (hk _ (by decide))
      | exact getOptBool_setOpt_ne _ _ _ _ _ (hk _ (by decide))

/-- Unknown keys are ignored by the amass builder. -/
theorem amassBuild_unknown (t w : Str) (opts : Str → Option Str)
    (k v : Str) (h : k ∉ recognizedKeys (strL "amass")) :
    amassBuild t w (setOpt opts k v) = amassBuild t w opts := by
  have hk : ∀ key ∈ recognizedKeys (strL "amass"), key ≠ k :=
    fun key hkey e => h (e ▸ hkey)
  apply amassBuild_read_ext <;>
    first
      | exact getOpt_setOpt_ne _ _ _ _ _ (hk _ (by decide))
      | exact getOptBool_setOpt_ne _ _ _ _ _ (hk _ (by decide))

/-- Unknown keys are ignored by the subfinder builder. -/
theorem subfinderBuild_unknown (t w : Str) (opts : Str → Option Str)
    (k v : Str) (h : k ∉ recognizedKeys (strL "subfinder")) :
    subfinderBuild t w (setOpt opts k v) = subfinderBuild t w opts := by
  have hk : ∀ key ∈ recognizedKeys (strL "subfinder"), key ≠ k :=
    fun key hkey e => h (e ▸ hkey)
  apply subfinderBuild_read_ext <;>
    first
      | exact getOpt_setOpt_ne _ _ _ _ _ (hk _ (by decide))
      | exact getOptBool_setOpt_ne _ _ _ _ _ (hk _ (by decide))

attribute [irreducible] getOpt getOptBool

/-- A missing key behaves like its documented default: feroxbuster. -/
theorem feroxbusterBuild_default (t w : Str) (opts : Str → Option Str)
    (k d : Str) (hmem : (k, d) ∈ defaultOpts (strL "feroxbuster"))
    (h : opts k = none) :
    feroxbusterBuild t w (setOpt opts k d) = feroxbusterBuild t w opts := by
  have hd : defaultOpts (strL "feroxbuster") =
      [(strL "depth", strL "3"), (strL "extensions", strL "php,html,txt,js"),
       (strL "threads", strL "50"), (strL "rate_limit", strL "200"),
       (strL "proxy", []),
       (strL "status_codes", strL "200,204,301,302,307,401,403")] := by decide
  rw [hd] at hmem
  simp only [List.mem_cons, List.not_mem_nil, or_false, Prod.mk.injEq] at hmem
  rcases hmem with h | h | h | h | h | h <;>
    obtain ⟨rfl, rfl⟩ := h <;>
    apply feroxbusterBuild_read_ext <;>
      first
        | exact getOpt_setOpt_default _ _ _ h
        | exact getOpt_setOpt_ne _ _ _ _ _ (by decide)

/-- A missing key behaves like its documented default: ffuf. -/
theorem ffufBuild_default (mo t w : Str) (opts : Str → Option Str)
    (k d : Str) (hmem : (k, d) ∈ defaultOpts (strL "ffuf"))
    (h : opts k = none) :
    ffufBuild mo t w (setOpt opts k d) = ffufBuild mo t w opts := by
  have hd : defaultOpts (strL "ffuf") =
      [(strL "domain", []), (strL "extensions", strL "php,html,txt,js"),
       (strL "threads", strL "50"), (strL "rate_limit", strL "200"),
       (strL "proxy", []), (strL "filter_codes", strL "400,404"),
       (strL "filter_size", [])] := by decide
  rw [hd] at hmem
  simp only [List.mem_cons, List.not_mem_nil, or_false, Prod.mk.injEq] at hmem
  rcases hmem with h | h | h | h | h | h | h <;>
    obtain ⟨rfl, rfl⟩ := h <;>
    apply ffufBuild_read_ext <;>
      first
        | exact getOpt_setOpt_default _ _ _ h
        | exact getOpt_setOpt_ne _ _ _ _ _ (by decide)

/-- A missing key behaves like its documented default: gobuster. -/
theorem gobusterBuild_default (mo t w : Str) (opts : Str → Option Str)
    (k d : Str) (hmem : (k, d) ∈ defaultOpts (strL "gobuster"))
    (h : opts k = none) :
    gobusterBuild mo t w (setOpt opts k d) = gobusterBuild mo t w opts := by
  have hd : defaultOpts (strL "gobuster") =
      [(strL "extensions", strL "php,html,txt,js"), (strL "threads", strL "50"),
       (strL "status_codes", strL "200,204,301,302,307,401,403"),
       (strL "proxy", []), (strL "follow_redirects", strL "True"),
       (strL "expanded", strL "False"), (strL "append_domain", strL "True"),
       (strL "domain", []), (strL "resolver", []),
       (strL "show_ips", strL "True")] := by decide
  rw [hd] at hmem
  simp only [List.mem_cons, List.not_mem_nil, or_false, Prod.mk.injEq] at hmem
  rcases hmem with h | h | h | h | h | h | h | h | h | h <;>
    obtain ⟨rfl, rfl⟩ := h <;>
    apply gobusterBuild_read_ext <;>
      first
        | exact getOpt_setOpt_default _ _ _ h
        | exact getOptBool_setOpt_default _ _ true h
        | exact getOptBool_setOpt_default _ _ false h
        | exact getOpt_setOpt_ne _ _ _ _ _ (by decide)
        | exact getOptBool_setOpt_ne _ _ _ _ _ (by decide)

/-- A missing key behaves like its documented default: dirb. -/
theorem dirbBuild_default (t w : Str) (opts : Str → Option Str)
    (k d : Str) (hmem : (k, d) ∈ defaultOpts (strL "dirb"))
    (h : opts k = none) :
    dirbBuild t w (setOpt opts k d) = dirbBuild t w opts := by
  have hd : defaultOpts (strL "dirb") =
      [(strL "extensions", []), (strL "case_insensitive", strL "False"),
       (strL "proxy", []), (strL "auth", []),
       (strL "non_recursive", strL "False")] := by decide
  rw [hd] at hmem
  simp only [List.mem_cons, List.not_mem_nil, or_false, Prod.mk.injEq] at hmem
  rcases hmem with h | h | h | h | h <;>
    obtain ⟨rfl, rfl⟩ := h <;>
    apply dirbBuild_read_ext <;>
      first
        | exact getOpt_setOpt_default _ _ _ h
        | exact getOptBool_setOpt_default _ _ true h
        | exact getOptBool_setOpt_default _ _ false h
        | exact getOpt_setOpt_ne _ _ _ _ _ (by decide)
        | exact getOptBool_setOpt_ne _ _ _ _ _ (by decide)

/-- A missing key behaves like its documented default: wfuzz. -/
theorem wfuzzBuild_default (mo t w : Str) (opts : Str → Option Str)
    (k d : Str) (hmem : (k, d) ∈ defaultOpts (strL "wfuzz"))
    (h : opts k = none) :
    wfuzzBuild mo t w (setOpt opts k d) = wfuzzBuild mo t w opts := by
  have hd : defaultOpts (strL "wfuzz") =
      [(strL "domain", []), (strL "threads", strL "50"),
       (strL "hide_codes", strL "404"), (strL "filter_lines", []),
       (strL "filter_words", []), (strL "proxy", []),
       (strL "extensions", [])] := by decide
  rw [hd] at hmem
  simp only [List.mem_cons, List.not_mem_nil, or_false, Prod.mk.injEq] at hmem
  rcases hmem with h | h | h | h | h | h | h <;>
    obtain ⟨rfl, rfl⟩ := h <;>
    apply wfuzzBuild_read_ext <;>
      first
        | exact getOpt_setOpt_default _ _ _ h
        | exact getOpt_setOpt_ne _ _ _ _ _ (by decide)

/-- A missing key behaves like its documented default: dirsearch. -/
theorem dirsearchBuild_default (t w : Str) (opts : Str → Option Str)
    (k d : Str) (hmem : (k, d) ∈ defaultOpts (strL "dirsearch"))
    (h : opts k = none) :
    dirsearchBuild t w (setOpt opts k d) = dirsearchBuild t w opts := by
  have hd : defaultOpts (strL "dirsearch") =
      [(strL "extensions", strL "php,html,txt,js"), (strL "threads", strL "50"),
       (strL "proxy", []), (strL "recursive", strL "True"),
       (strL "depth", strL "3"), (strL "filter_codes", strL "400,404"),
       (strL "random_agents", strL "True")] := by decide
  rw [hd] at hmem
  simp only [List.mem_cons, List.not_mem_nil, or_false, Prod.mk.injEq] at hmem
  rcases hmem with h | h | h | h | h | h | h <;>
    obtain ⟨rfl, rfl⟩ := h <;>
    apply dirsearchBuild_read_ext <;>
      first
        | exact getOpt_setOpt_default _ _ _ h
        | exact getOptBool_setOpt_default _ _ true h
        | exact getOptBool_setOpt_default _ _ false h
        | exact getOpt_setOpt_ne _ _ _ _ _ (by decide)
        | exact getOptBool_setOpt_ne _ _ _ _ _ (by decide)

/-- A missing key behaves like its documented default: amass. -/
theorem amassBuild_default (t w : Str) (opts : Str → Option Str)
    (k d : Str) (hmem : (k, d) ∈ defaultOpts (strL "amass"))
    (h : opts k = none) :
    amassBuild t w (setOpt opts k d) = amassBuild t w opts := by
  have hd : defaultOpts (strL "amass") =
      [(strL "passive", strL "True"), (strL "brute_force", strL "False"),
       (strL "timeout", []), (strL "resolver", []),
       (strL "max_dns_queries", [])] := by decide
  rw [hd] at hmem
  simp only [List.mem_cons, List.not_mem_nil, or_false, Prod.mk.injEq] at hmem
  rcases hmem with h | h | h | h | h <;>
    obtain ⟨rfl, rfl⟩ := h <;>
    apply amassBuild_read_ext <;>
      first
        | exact getOpt_setOpt_default _ _ _ h
        | exact getOptBool_setOpt_default _ _ true h
        | exact getOptBool_setOpt_default _ _ false h
        | exact getOpt_setOpt_ne _ _ _ _ _ (by decide)
        | exact getOptBool_setOpt_ne _ _ _ _ _ (by decide)

/-- A missing key behaves like its documented default: subfinder. -/
theorem subfinderBuild_default (t w : Str) (opts : Str → Option Str)
    (k d : Str) (hmem : (k, d) ∈ defaultOpts (strL "subfinder"))
    (h : opts k = none) :
    subfinderBuild t w (setOpt opts k d) = subfinderBuild t w opts := by
  have hd : defaultOpts (strL "subfinder") =
      [(strL "threads", strL "30"), (strL "timeout", strL "30"),
       (strL "max_time", []), (strL "resolver", []),
       (strL "all_sources", strL "True"), (strL "recursive", strL "False")] := by
    decide
  rw [hd] at hmem
  simp only [List.mem_cons, List.not_mem_nil, or_false, Prod.mk.injEq] at hmem
  rcases hmem with h | h | h | h | h | h <;>
    obtain ⟨rfl, rfl⟩ := h <;>
    apply subfinderBuild_read_ext <;>
      first
        | exact getOpt_setOpt_default _ _ _ h
        | exact getOptBool_setOpt_default _ _ true h
        | exact getOptBool_setOpt_default _ _ false h
        | exact getOpt_setOpt_ne _ _ _ _ _ (by decide)
        | exact getOptBool_setOpt_ne _ _ _ _ _ (by decide)

/-- Unknown option keys are ignored by every constructed scanner's
build_command. -/
theorem build_command_unknown (tool mode target wl : Str)
    (opts : Str → Option Str) (k v : Str) (h : k ∉ recognizedKeys tool) :
    build_command { tool := tool, mode := mode, target := target,
                    wordlist := wl, options := setOpt opts k v } =
      build_command { tool := tool, mode := mode, target := target,
                      wordlist := wl, options := opts } := by
  unfold build_command
  dsimp only
  by_cases h1 : (tool == strL "feroxbuster") = true
  · obtain rfl := eq_of_beq h1
    simp only [h1, if_true]
    exact feroxbusterBuild_unknown _ _ _ _ _ h
  · simp only [h1, Bool.false_eq_true, if_false]
    by_cases h2 : (tool == strL "ffuf") = true
    · obtain rfl := eq_of_beq h2
      simp only [h2, if_true]
      exact ffufBuild_unknown _ _ _ _ _ _ h
    · simp only [h2, Bool.false_eq_true, if_false]
      by_cases h3 : (tool == strL "gobuster") = true
      · obtain rfl := eq_of_beq h3
        simp only [h3, if_true]
        exact gobusterBuild_unknown _ _ _ _ _ _ h
      · simp only [h3, Bool.false_eq_true, if_false]
        by_cases h4 : (tool == strL "dirb") = true
        · obtain rfl := eq_of_beq h4
          simp only [h4, if_true]
          exact dirbBuild_unknown _ _ _ _ _ h
        · simp only [h4, Bool.false_eq_true, if_false]
          by_cases h5 : (tool == strL "wfuzz") = true
          · obtain rfl := eq_of_beq h5
            simp only [h5, if_true]
            exact wfuzzBuild_unknown _ _ _ _ _ _ h
          · simp only [h5, Bool.false_eq_true, if_false]
            by_cases h6 : (tool == strL "dirsearch") = true
            · obtain rfl := eq_of_beq h6
              simp only [h6, if_true]
              exact dirsearchBuild_unknown _ _ _ _ _ h
            · simp only [h6, Bool.false_eq_true, if_false]
              by_cases h7 : (tool == strL "amass") = true
              · obtain rfl := eq_of_beq h7
                simp only [h7, if_true]
                exact amassBuild_unknown _ _ _ _ _ h
              · simp only [h7, Bool.false_eq_true, if_false]
                by_cases h8 : (tool == strL "subfinder") = true
                · obtain rfl := eq_of_beq h8
                  simp only [h8, if_true]
                  exact subfinderBuild_unknown _ _ _ _ _ h
                · simp only [h8, Bool.false_eq_true, if_false]

/-- Missing option keys behave like their documented defaults in every
constructed scanner's build_command. -/
theorem build_command_default (tool mode target wl : Str)
    (opts : Str → Option Str) (k d : Str)
    (hmem : (k, d) ∈ defaultOpts tool) (h : opts k = none) :
    build_command { tool := tool, mode := mode, target := target,
                    wordlist := wl, options := setOpt opts k d } =
      build_command { tool := tool, mode := mode, target := target,
                      wordlist := wl, options := opts } := by
  unfold build_command
  dsimp only
  by_cases h1 : (tool == strL "feroxbuster") = true
  · obtain rfl := eq_of_beq h1
    simp only [h1, if_true]
    exact feroxbusterBuild_default _ _ _ _ _ hmem h
  · simp only [h1, Bool.false_eq_true, if_false]
    by_cases h2 : (tool == strL "ffuf") = true
    · obtain rfl := eq_of_beq h2
      simp only [h2, if_true]
      exact ffufBuild_default _ _ _ _ _ _ hmem h
    · simp only [h2, Bool.false_eq_true, if_false]
      by_cases h3 : (tool == strL "gobuster") = true
      · obtain rfl := eq_of_beq h3
        simp only [h3, if_true]
        exact gobusterBuild_default _ _ _ _ _ _ hmem h
      · simp only [h3, Bool.false_eq_true, if_false]
        by_cases h4 : (tool == strL "dirb") = true
        · obtain rfl := eq_of_beq h4
          simp only [h4, if_true]
          exact dirbBuild_default _ _ _ _ _ hmem h
        · simp only [h4, Bool.false_eq_true, if_false]
          by_cases h5 : (tool == strL "wfuzz") = true
          · obtain rfl := eq_of_beq h5
            simp only [h5, if_true]
            exact wfuzzBuild_default _ _ _ _ _ _ hmem h
          · simp only [h5, Bool.false_eq_true, if_false]
            by_cases h6 : (tool == strL "dirsearch") = true
            · obtain rfl := eq_of_beq h6
              simp only [h6, if_true]
              exact dirsearchBuild_default _ _ _ _ _ hmem h
            · simp only [h6, Bool.false_eq_true, if_false]
              by_cases h7 : (tool == strL "amass") = true
              · obtain rfl := eq_of_beq h7
                simp only [h7, if_true]
                exact amassBuild_default _ _ _ _ _ hmem h
              · simp only [h7, Bool.false_eq_true, if_false]
                by_cases h8 : (tool == strL "subfinder") = true
                · obtain rfl := eq_of_beq h8
                  simp only [h8, if_true]
                  exact subfinderBuild_default _ _ _ _ _ hmem h
                · simp only [h8, Bool.false_eq_true, if_false]

/-- Claim C8: the factory fails exactly on the eight unsupported tool
identities; for every constructed scanner, the (pure, total)
build_command ignores unknown option keys, and a missing recognised
key behaves exactly as if it were present with its documented per-tool
default. -/
theorem c8_create_scanner (tool mode target wl : Str)
    (opts : Str → Option Str) :
    ((create_scanner tool mode target wl opts).isOk = true ↔
      tool ∈ supportedTools) ∧
    (∀ k v, k ∉ recognizedKeys tool →
      build_command { tool := tool, mode := mode, target := target,
                      wordlist := wl, options := setOpt opts k v } =
        build_command { tool := tool, mode := mode, target := target,
                        wordlist := wl, options := opts }) ∧
    (∀ k d, (k, d) ∈ defaultOpts tool → opts k = none →
      build_command { tool := tool, mode := mode, target := target,
                      wordlist := wl, options := setOpt opts k d } =
        build_command { tool := tool, mode := mode, target := target,
                        wordlist := wl, options := opts }) := by
  refine ⟨?_, fun k v hk => build_command_unknown tool mode target wl opts k v hk,
    fun k d hm hn => build_command_default tool mode target wl opts k d hm hn⟩
  unfold create_scanner
  by_cases hmem : tool ∈ supportedTools
  · rw [if_pos hmem]
    simpa [Except.isOk, Except.toBool] using hmem
  · rw [if_neg hmem]
    simpa [Except.isOk, Except.toBool] using hmem

/-- Witness for claim C8: feroxbuster is accepted, an unrecognised key
is ignored, and the absent depth key behaves like its default 3. -/
theorem c8_witness :
    ((create_scanner (strL "feroxbuster") (strL "directory")
        (strL "http://x") (strL "w.txt") (fun _ => none)).isOk = true) ∧
    build_command { tool := strL "feroxbuster", mode := strL "directory",
                    target := strL "http://x", wordlist := strL "w.txt",
                    options := setOpt (fun _ => none) (strL "bogus") (strL "1") } =
      build_command { tool := strL "feroxbuster", mode := strL "directory",
                      target := strL "http://x", wordlist := strL "w.txt",
                      options := fun _ => none } ∧
    build_command { tool := strL "feroxbuster", mode := strL "directory",
                    target := strL "http://x", wordlist := strL "w.txt",
                    options := setOpt (fun _ => none) (strL "depth") (strL "3") } =
      build_command { tool := strL "feroxbuster", mode := strL "directory",
                      target := strL "http://x", wordlist := strL "w.txt",
                      options := fun _ => none } := by
  have h := c8_create_scanner (strL "feroxbuster") (strL "directory")
    (strL "http://x") (strL "w.txt") (fun _ => none)
  exact ⟨h.1.mpr (by decide), h.2.1 (strL "bogus") (strL "1") (by decide),
    h.2.2 (strL "depth") (strL "3") (by decide) rfl⟩

/-- One canonical line shape per supported status pattern, each
embedding the given status-code digits. -/
def statusShapes (ds : Str) : List Str :=
  [ strL "CODE:" ++ ds
  , strL "C=" ++ ds
  , strL "Status:" ++ ds
  , strL "[Status:" ++ ds ++ strL "]"
  , strL "(Status:" ++ ds ++ strL ")"
  , ds ++ strL " "
  , ds ++ strL " http://"
  , ds ++ strL " 1A"
  , '|' :: ds ++ strL "|" ]

/-- Three consecutive digit characters somewhere in the line whose
numeric value lies in the accepted status range. -/
def hasStatusTriple : Str → Bool
  | a :: b :: c :: rest =>
    (isDig a && isDig b && isDig c &&
      statusInRange (100 * digitVal a + 10 * digitVal b + digitVal c)) ||
    hasStatusTriple (b :: c :: rest)
  | _ => false

/-- A three-digit token in the accepted range: a maximal run of digits
of length exactly three (neither preceded nor followed by a digit)
whose value lies in the accepted status range.  This formalises the
three-digit token of the claim as stated. -/
def hasStatusTokenGo (prevDigit : Bool) : Str → Bool
  | a :: b :: c :: rest =>
    (!prevDigit && isDig a && isDig b && isDig c &&
      (match rest with | [] => true | x :: _ => !isDig x) &&
      statusInRange (100 * digitVal a + 10 * digitVal b + digitVal c)) ||
    hasStatusTokenGo (isDig a) (b :: c :: rest)
  | _ => false

/-- Whether the line contains a three-digit token in range. -/
def hasStatusToken (l : Str) : Bool := hasStatusTokenGo false l

/-- Claim C4 (as stated): refuted on the line CODE:1234, which
contains no three-digit token (its only digit run has length four),
yet parse_status_code returns 123, the first three digits of the run
captured by the CODE: pattern. -/
theorem c4_counterexample :
    parse_status_code (strL "CODE:1234") = some 123 ∧
    hasStatusToken (strL "CODE:1234") = false := by
  refine ⟨by decide, by decide⟩

/-- A triple in the tail is a triple in the whole list. -/
theorem hasStatusTriple_cons (x : Char) (l : Str)
    (h : hasStatusTriple l = true) : hasStatusTriple (x :: l) = true := by
  match l, h with
  | a :: b :: c :: r, h =>
    show hasStatusTriple (x :: a :: b :: c :: r) = true
    unfold hasStatusTriple
    rw [h]
    simp

/-- A triple survives prepending any prefix. -/
theorem hasStatusTriple_append (pre l : Str)
    (h : hasStatusTriple l = true) : hasStatusTriple (pre ++ l) = true := by
  induction pre with
  | nil => simpa using h
  | cons x pre ih => exact hasStatusTriple_cons x _ ih

/-- A successful three-digit capture in the accepted range is a triple. -/
theorem d3_triple (l : Str) (v : Nat) (rest : Str)
    (h : d3 l = some (v, rest)) (hr : statusInRange v = true) :
    hasStatusTriple l = true := by
  match l with
  | [] => exact absurd h (by simp [d3])
  | [a] => exact absurd h (by simp [d3])
  | [a, b] => exact absurd h (by simp [d3])
  | a :: b :: c :: r =>
    simp only [d3] at h
    by_cases hd : (isDig a && isDig b && isDig c) = true
    · rw [if_pos hd] at h
      simp only [Option.some.injEq, Prod.mk.injEq] at h
      obtain ⟨hv, -⟩ := h
      unfold hasStatusTriple
      rw [Bool.and_eq_true, Bool.and_eq_true] at hd
      simp [hd.1.1, hd.1.2, hd.2, hv, hr]
    · rw [if_neg hd] at h
      cases h

/-- A literal match decomposes the input. -/
theorem lit_decomp (pat l r : Str) (h : lit pat l = some r) : l = pat ++ r := by
  unfold lit at h
  by_cases hp : pat.isPrefixOf l
  · rw [if_pos hp] at h
    injection h with h
    obtain ⟨t, rfl⟩ := List.isPrefixOf_iff_prefix.mp hp
    rw [List.drop_left] at h
    rw [h]
  · rw [if_neg hp] at h
    cases h

/-- Skipping whitespace removes a prefix. -/
theorem skipWs_decomp (l : Str) : ∃ ws, l = ws ++ skipWs l := by
  induction l with
  | nil => exact ⟨[], rfl⟩
  | cons c t ih =>
    by_cases hc : isSpaceChar c = true
    · obtain ⟨ws, hw⟩ := ih
      refine ⟨c :: ws, ?_⟩
      simp only [skipWs, hc, if_true, List.cons_append]
      rw [← hw]
    · refine ⟨[], ?_⟩
      simp [skipWs, hc]

/-- A successful search matches at a suffix position. -/
theorem searchGo_suffix {α : Type} (p : Option Char → Str → Option α)
    (v : α) : ∀ (l : Str) (prev : Option Char), searchGo p prev l = some v →
      ∃ prev2 s, s <:+ l ∧ p prev2 s = some v := by
  intro l
  induction l with
  | nil =>
    intro prev h
    exact ⟨prev, [], List.suffix_refl [], h⟩
  | cons c t ih =>
    intro prev h
    unfold searchGo at h
    cases hp : p prev (c :: t) with
    | some w =>
      rw [hp] at h
      injection h with h
      subst h
      exact ⟨prev, c :: t, List.suffix_refl _, hp⟩
    | none =>
      rw [hp] at h
      obtain ⟨p2, s, hs, hps⟩ := ih (some c) h
      exact ⟨p2, s, hs.trans (List.suffix_cons c t), hps⟩

/-- A triple in a suffix is a triple in the whole line. -/
theorem hasStatusTriple_of_suffix (s l : Str) (hs : s <:+ l)
    (h : hasStatusTriple s = true) : hasStatusTriple l = true := by
  obtain ⟨pre, rfl⟩ := hs
  exact hasStatusTriple_append pre s h

/-- A CODE: match in range exhibits a triple. -/
theorem mCode_triple (prev : Option Char) (l : Str) (v : Nat)
    (h : mCode prev l = some v) (hr : statusInRange v = true) :
    hasStatusTriple l = true := by
  unfold mCode at h
  cases hl : lit (strL "CODE:") l with
  | none => rw [hl] at h; exact Option.noConfusion h
  | some r =>
    rw [hl] at h
    replace h : (d3 r).map Prod.fst = some v := h
    cases hd : d3 r with
    | none => rw [hd] at h; exact Option.noConfusion h
    | some p =>
      obtain ⟨w, rest⟩ := p
      rw [hd] at h
      have hw : w = v := by simpa using h
      subst hw
      rw [lit_decomp _ _ _ hl]
      exact hasStatusTriple_append _ _ (d3_triple r w rest hd hr)

/-- A C= match in range exhibits a triple. -/
theorem mCEq_triple (prev : Option Char) (l : Str) (v : Nat)
    (h : mCEq prev l = some v) (hr : statusInRange v = true) :
    hasStatusTriple l = true := by
  unfold mCEq at h
  cases hl : lit (strL "C=") l with
  | none => rw [hl] at h; exact Option.noConfusion h
  | some r =>
    rw [hl] at h
    replace h : (d3 r).map Prod.fst = some v := h
    cases hd : d3 r with
    | none => rw [hd] at h; exact Option.noConfusion h
    | some p =>
      obtain ⟨w, rest⟩ := p
      rw [hd] at h
      have hw : w = v := by simpa using h
      subst hw
      rw [lit_decomp _ _ _ hl]
      exact hasStatusTriple_append _ _ (d3_triple r w rest hd hr)

/-- A Status: match in range exhibits a triple. -/
theorem mStatus_triple (prev : Option Char) (l : Str) (v : Nat)
    (h : mStatus prev l = some v) (hr : statusInRange v = true) :
    hasStatusTriple l = true := by
  unfold mStatus at h
  cases hl : lit (strL "Status:") l with
  | none => rw [hl] at h; exact Option.noConfusion h
  | some r =>
    rw [hl] at h
    replace h : (d3 (skipWs r)).map Prod.fst = some v := h
    cases hd : d3 (skipWs r) with
    | none => rw [hd] at h; exact Option.noConfusion h
    | some p =>
      obtain ⟨w, rest⟩ := p
      rw [hd] at h
      have hw : w = v := by simpa using h
      subst hw
      have ht : hasStatusTriple r = true := by
        obtain ⟨ws, hws⟩ := skipWs_decomp r
        rw [hws]
        exact hasStatusTriple_append _ _ (d3_triple _ w rest hd hr)
      rw [lit_decomp _ _ _ hl]
      exact hasStatusTriple_append _ _ ht

/-- A bracketed Status match in range exhibits a triple. -/
theorem mBracketStatus_triple (prev : Option Char) (l : Str) (v : Nat)
    (h : mBracketStatus prev l = some v) (hr : statusInRange v = true) :
    hasStatusTriple l = true := by
  unfold mBracketStatus at h
  split at h
  · rename_i r hl
    split at h
    · rename_i w tail heq
      injection h with h
      subst h
      have ht : hasStatusTriple r = true := by
        obtain ⟨ws, hws⟩ := skipWs_decomp r
        rw [hws]
        exact hasStatusTriple_append _ _ (d3_triple _ w (']' :: tail) heq hr)
      rw [lit_decomp _ _ _ hl]
      exact hasStatusTriple_append _ _ ht
    · exact Option.noConfusion h
  · exact Option.noConfusion h

/-- A parenthesised Status match in range exhibits a triple. -/
theorem mParenStatus_triple (prev : Option Char) (l : Str) (v : Nat)
    (h : mParenStatus prev l = some v) (hr : statusInRange v = true) :
    hasStatusTriple l = true := by
  unfold mParenStatus at h
  split at h
  · rename_i r hl
    split at h
    · rename_i w tail heq
      injection h with h
      subst h
      have ht : hasStatusTriple r = true := by
        obtain ⟨ws, hws⟩ := skipWs_decomp r
        rw [hws]
        exact hasStatusTriple_append _ _ (d3_triple _ w (')' :: tail) heq hr)
      rw [lit_decomp _ _ _ hl]
      exact hasStatusTriple_append _ _ ht
    · exact Option.noConfusion h
  · exact Option.noConfusion h

/-- An anchored line-start match in range exhibits a triple. -/
theorem mLineStart_triple (l : Str) (v : Nat)
    (h : mLineStart l = some v) (hr : statusInRange v = true) :
    hasStatusTriple l = true := by
  unfold mLineStart at h
  split at h
  · rename_i w c tail heq
    split at h
    · injection h with h
      subst h
      obtain ⟨ws, hws⟩ := skipWs_decomp l
      rw [hws]
      exact hasStatusTriple_append _ _ (d3_triple _ w (c :: tail) heq hr)
    · exact Option.noConfusion h
  · exact Option.noConfusion h

/-- A status-before-URL match in range exhibits a triple. -/
theorem mCodeBeforeUrl_triple (prev : Option Char) (l : Str) (v : Nat)
    (h : mCodeBeforeUrl prev l = some v) (hr : statusInRange v = true) :
    hasStatusTriple l = true := by
  unfold mCodeBeforeUrl at h
  split at h
  · split at h
    · rename_i a b c rest
      split at h
      · rename_i hd
        simp only [] at h
        split at h
        · injection h with h
          subst h
          exact d3_triple _ _ rest (by simp [d3, hd]) hr
        · exact Option.noConfusion h
      · exact Option.noConfusion h
    · exact Option.noConfusion h
  · exact Option.noConfusion h

/-- A status-then-size match in range exhibits a triple. -/
theorem mCodeThenSize_triple (prev : Option Char) (l : Str) (v : Nat)
    (h : mCodeThenSize prev l = some v) (hr : statusInRange v = true) :
    hasStatusTriple l = true := by
  unfold mCodeThenSize at h
  split at h
  · split at h
    · rename_i w rest heqd
      split at h
      · rename_i r0 rest1
        split at h
        · simp only [] at h
          split at h
          · split at h
            · split at h
              · injection h with h
                subst h
                exact d3_triple _ w _ heqd hr
              · exact Option.noConfusion h
            · exact Option.noConfusion h
          · exact Option.noConfusion h
        · exact Option.noConfusion h
      · exact Option.noConfusion h
    · exact Option.noConfusion h
  · exact Option.noConfusion h

/-- A pipe-delimited match in range exhibits a triple. -/
theorem mPiped_triple (prev : Option Char) (l : Str) (v : Nat)
    (h : mPiped prev l = some v) (hr : statusInRange v = true) :
    hasStatusTriple l = true := by
  unfold mPiped at h
  split at h
  · rename_i t
    split at h
    · rename_i w rest heqd
      split at h
      · injection h with h
        subst h
        have ht : hasStatusTriple t = true := by
          obtain ⟨ws, hws⟩ := skipWs_decomp t
          rw [hws]
          exact hasStatusTriple_append _ _ (d3_triple _ w rest heqd hr)
        exact hasStatusTriple_cons '|' t ht
      · exact Option.noConfusion h
    · exact Option.noConfusion h
  · exact Option.noConfusion h

/-- A value returned by the pattern loop is in range and comes from
one of the listed patterns. -/
theorem tryStatusPatterns_sound :
    ∀ (ps : List (Str → Option Nat)) (l : Str) (v : Nat),
      tryStatusPatterns ps l = some v →
        statusInRange v = true ∧ ∃ p ∈ ps, p l = some v := by
  intro ps
  induction ps with
  | nil =>
    intro l v h
    exact absurd h (by simp [tryStatusPatterns])
  | cons p ps ih =>
    intro l v h
    unfold tryStatusPatterns at h
    cases hp : p l with
    | none =>
      simp only [hp] at h
      obtain ⟨h1, q, hq, hql⟩ := ih l v h
      exact ⟨h1, q, List.mem_cons_of_mem _ hq, hql⟩
    | some w =>
      simp only [hp] at h
      by_cases hw : statusInRange w = true
      · rw [if_pos hw] at h
        injection h with h
        subst h
        exact ⟨hw, p, List.mem_cons_self _ _, hp⟩
      · rw [if_neg hw] at h
        obtain ⟨h1, q, hq, hql⟩ := ih l v h
        exact ⟨h1, q, List.mem_cons_of_mem _ hq, hql⟩

/-- Any status code returned by the classifier is in range and is
witnessed by three consecutive digit characters of the line whose
value is that code. -/
theorem parse_status_code_triple (l : Str) (v : Nat)
    (h : parse_status_code l = some v) :
    statusInRange v = true ∧ hasStatusTriple l = true := by
  obtain ⟨hr, q, hq, hql⟩ := tryStatusPatterns_sound statusPatterns l v h
  refine ⟨hr, ?_⟩
  simp only [statusPatterns, List.mem_cons, List.not_mem_nil, or_false] at hq
  rcases hq with rfl | rfl | rfl | rfl | rfl | rfl | rfl | rfl | rfl
  · obtain ⟨p2, s, hs, hm⟩ := searchGo_suffix _ _ _ _ hql
    exact hasStatusTriple_of_suffix _ _ hs (mCode_triple p2 s v hm hr)
  · obtain ⟨p2, s, hs, hm⟩ := searchGo_suffix _ _ _ _ hql
    exact hasStatusTriple_of_suffix _ _ hs (mCEq_triple p2 s v hm hr)
  · obtain ⟨p2, s, hs, hm⟩ := searchGo_suffix _ _ _ _ hql
    exact hasStatusTriple_of_suffix _ _ hs (mStatus_triple p2 s v hm hr)
  · obtain ⟨p2, s, hs, hm⟩ := searchGo_suffix _ _ _ _ hql
    exact hasStatusTriple_of_suffix _ _ hs (mBracketStatus_triple p2 s v hm hr)
  · obtain ⟨p2, s, hs, hm⟩ := searchGo_suffix _ _ _ _ hql
    exact hasStatusTriple_of_suffix _ _ hs (mParenStatus_triple p2 s v hm hr)
  · exact mLineStart_triple l v hql hr
  · obtain ⟨p2, s, hs, hm⟩ := searchGo_suffix _ _ _ _ hql
    exact hasStatusTriple_of_suffix _ _ hs (mCodeBeforeUrl_triple p2 s v hm hr)
  · obtain ⟨p2, s, hs, hm⟩ := searchGo_suffix _ _ _ _ hql
    exact hasStatusTriple_of_suffix _ _ hs (mCodeThenSize_triple p2 s v hm hr)
  · obtain ⟨p2, s, hs, hm⟩ := searchGo_suffix _ _ _ _ hql
    exact hasStatusTriple_of_suffix _ _ hs (mPiped_triple p2 s v hm hr)


set_option maxRecDepth 100000 in
set_option maxHeartbeats 4000000 in
/-- Exhaustive check of the CODE: shape over all in-range codes. -/
theorem shapeCode_all : ((List.range 500).all fun i =>
    parse_status_code (strL "CODE:" ++ Nat.toDigits 10 (100 + i))
      == some (100 + i)) = true := by decide

set_option maxRecDepth 100000 in
set_option maxHeartbeats 4000000 in
/-- Exhaustive check of the C= shape over all in-range codes. -/
theorem shapeCEq_all : ((List.range 500).all fun i =>
    parse_status_code (strL "C=" ++ Nat.toDigits 10 (100 + i))
      == some (100 + i)) = true := by decide

set_option maxRecDepth 100000 in
set_option maxHeartbeats 4000000 in
/-- Exhaustive check of the Status: shape over all in-range codes. -/
theorem shapeStatus_all : ((List.range 500).all fun i =>
    parse_status_code (strL "Status:" ++ Nat.toDigits 10 (100 + i))
      == some (100 + i)) = true := by decide

set_option maxRecDepth 100000 in
set_option maxHeartbeats 4000000 in
/-- Exhaustive check of the bracketed shape over all in-range codes. -/
theorem shapeBracket_all : ((List.range 500).all fun i =>
    parse_status_code (strL "[Status:" ++ Nat.toDigits 10 (100 + i) ++ strL "]")
      == some (100 + i)) = true := by decide

set_option maxRecDepth 100000 in
set_option maxHeartbeats 4000000 in
/-- Exhaustive check of the parenthesised shape over all in-range codes. -/
theorem shapeParen_all : ((List.range 500).all fun i =>
    parse_status_code (strL "(Status:" ++ Nat.toDigits 10 (100 + i) ++ strL ")")
      == some (100 + i)) = true := by decide

set_option maxRecDepth 100000 in
set_option maxHeartbeats 4000000 in
/-- Exhaustive check of the line-start shape over all in-range codes. -/
theorem shapeLineStart_all : ((List.range 500).all fun i =>
    parse_status_code (Nat.toDigits 10 (100 + i) ++ strL " ")
      == some (100 + i)) = true := by decide

set_option maxRecDepth 100000 in
set_option maxHeartbeats 4000000 in
/-- Exhaustive check of the code-before-URL shape over all in-range codes. -/
theorem shapeUrl_all : ((List.range 500).all fun i =>
    parse_status_code (Nat.toDigits 10 (100 + i) ++ strL " http://")
      == some (100 + i)) = true := by decide

set_option maxRecDepth 100000 in
set_option maxHeartbeats 4000000 in
/-- Exhaustive check of the code-then-size shape over all in-range codes. -/
theorem shapeSize_all : ((List.range 500).all fun i =>
    parse_status_code (Nat.toDigits 10 (100 + i) ++ strL " 1A")
      == some (100 + i)) = true := by decide

set_option maxRecDepth 100000 in
set_option maxHeartbeats 4000000 in
/-- Exhaustive check of the pipe-delimited shape over all in-range codes. -/
theorem shapePiped_all : ((List.range 500).all fun i =>
    parse_status_code (Char.ofNat 124 :: Nat.toDigits 10 (100 + i) ++ strL "|")
      == some (100 + i)) = true := by decide

/-- Claim C4, amended: the classifier returns either absent or a code
in [100, 599]; every code in that range embedded in any of the nine
supported line shapes is returned; and a line containing no three
consecutive digit characters whose value is in [100, 599] classifies
to absent (a matched three-digit group may sit inside a longer digit
run, so the claim's three-digit-token reading fails). -/
theorem c4_status_amended :
    (∀ l v, parse_status_code l = some v → 100 ≤ v ∧ v ≤ 599) ∧
    (∀ c, 100 ≤ c → c ≤ 599 →
      ∀ s ∈ statusShapes (Nat.toDigits 10 c), parse_status_code s = some c) ∧
    (∀ l, hasStatusTriple l = false → parse_status_code l = none) := by
  refine ⟨?_, ?_, ?_⟩
  · intro l v h
    have hr := (parse_status_code_triple l v h).1
    unfold statusInRange at hr
    rw [Bool.and_eq_true, decide_eq_true_eq, decide_eq_true_eq] at hr
    exact hr
  · intro c h1 h2 s hs
    have hi : c - 100 < 500 := by omega
    have h100 : 100 + (c - 100) = c := by omega
    have hmem := List.mem_range.mpr hi
    simp only [statusShapes, List.mem_cons, List.not_mem_nil, or_false] at hs
    rcases hs with rfl | rfl | rfl | rfl | rfl | rfl | rfl | rfl | rfl
    · have k := List.all_eq_true.mp shapeCode_all (c - 100) hmem
      rw [h100] at k
      exact eq_of_beq k
    · have k := List.all_eq_true.mp shapeCEq_all (c - 100) hmem
      rw [h100] at k
      exact eq_of_beq k
    · have k := List.all_eq_true.mp shapeStatus_all (c - 100) hmem
      rw [h100] at k
      exact eq_of_beq k
    · have k := List.all_eq_true.mp shapeBracket_all (c - 100) hmem
      rw [h100] at k
      exact eq_of_beq k
    · have k := List.all_eq_true.mp shapeParen_all (c - 100) hmem
      rw [h100] at k
      exact eq_of_beq k
    · have k := List.all_eq_true.mp shapeLineStart_all (c - 100) hmem
      rw [h100] at k
      exact eq_of_beq k
    · have k := List.all_eq_true.mp shapeUrl_all (c - 100) hmem
      rw [h100] at k
      exact eq_of_beq k
    · have k := List.all_eq_true.mp shapeSize_all (c - 100) hmem
      rw [h100] at k
      exact eq_of_beq k
    · have k := List.all_eq_true.mp shapePiped_all (c - 100) hmem
      rw [h100] at k
      exact eq_of_beq k
  · intro l hfalse
    cases hp : parse_status_code l with
    | none => rfl
    | some v =>
      have ht := (parse_status_code_triple l v hp).2
      rw [hfalse] at ht
      cases ht

/-- Witness for claim C4 at code 200: range membership, a shape line,
and a tripleless line. -/
theorem c4_witness :
    (100 ≤ 200 ∧ 200 ≤ 599) ∧
    parse_status_code (strL "CODE:200") = some 200 ∧
    parse_status_code (strL "hello") = none := by
  refine ⟨c4_status_amended.1 (strL "CODE:200") 200 (by decide), ?_, ?_⟩
  · exact c4_status_amended.2.1 200 (by norm_num) (by norm_num)
      (strL "CODE:200") (by decide)
  · exact c4_status_amended.2.2 (strL "hello") (by decide)
